import Mathlib

/-!
Verification of the cpuwu virtual CPU core (src/lib.rs) against its
natural-language specification.

The Rust source is shallowly embedded: machine integers (u32/u64/u8) are
natural numbers with explicit truncation `% 2 ^ 32` (resp. `% 256`) exactly
where the Rust types truncate; wrapping arithmetic follows release-profile
semantics; a Rust panic (integer division by zero, a `todo` branch, an
unreachable branch) is a distinct `Res.panic` outcome; fallible operations
returning `Result<_, InvalidMemoryAccess>` become the `Res.fault` outcome.
The `&mut self` receiver of every CPU method is modelled by explicit state
passing through the monad `Mo` below.  The memory backend is the
repository's `SimpleAddress` (a byte array of size 0x1000000; out-of-range
reads yield 0, out-of-range writes are dropped); cells are bytes, which the
read models with `% 256`.

IEEE-754 float arithmetic is not given a bit-level definition; the four
arithmetic operations and the two value conversions of the source are
abstracted into a `FloatOps` parameter.  The classification predicates
(zero / sign / NaN / infinite) used for the flag updates are defined
exactly on the 32-bit patterns, and `fs` registers hold bit patterns.
-/

namespace Cpuwu

/-- 2 ^ 32, the truncation modulus of the 32-bit machine words. -/
def M32 : Nat := 4294967296

/-- Size of the `SimpleAddress` physical memory (0x1000000 bytes). -/
def PMEM : Nat := 16777216

/-- Permission bit for reads (READ = 0b100 in the source). -/
def READ : Nat := 4

/-- Permission bit for writes (WRITE = 0b010). -/
def WRITE : Nat := 2

/-- Permission bit for instruction fetch (EXEC = 0b001). -/
def EXEC : Nat := 1

/-- The error enum `InvalidMemoryAccess` of the source.  Note it has exactly
two constructors; there is no divide-by-zero or privilege variant. -/
inductive InvalidMemoryAccess where
  | UsedFreePage : InvalidMemoryAccess
  | InvalidPermissions : Nat → Nat → InvalidMemoryAccess
deriving DecidableEq, Repr

/-- One hart: the fields of `struct Cpu` with the `SimpleAddress` backend
inlined as `mem`.  `xs` are the u32 integer registers, `fs` holds the bit
patterns of the f32 registers, `flags` and `memmap` are u32 words, `mem` is
the byte array (indexed by physical address). -/
structure Cpu where
  xs : Fin 16 → Nat
  fs : Fin 16 → Nat
  flags : Nat
  memmap : Nat
  mem : Nat → Nat

/-- Outcome of running a CPU method: normal return with a value, an
`Err(InvalidMemoryAccess)` propagated by `?`, or a Rust panic.  Every
outcome carries the state of the hart at that point (mutations made before
a fault or panic are not rolled back). -/
inductive Res (α : Type) where
  | ok : α → Cpu → Res α
  | fault : InvalidMemoryAccess → Cpu → Res α
  | panic : Cpu → Res α

/-- The hart state carried by an outcome. -/
def Res.cpu {α : Type} : Res α → Cpu
  | .ok _ s => s
  | .fault _ s => s
  | .panic s => s

/-- Whether an outcome is a normal return. -/
def Res.isOk {α : Type} : Res α → Bool
  | .ok _ _ => true
  | _ => false

/-- Whether an outcome is a panic. -/
def Res.isPanic {α : Type} : Res α → Bool
  | .panic _ => true
  | _ => false

/-- State monad with fault and panic outcomes, modelling `&mut self`
methods returning `Result<α, InvalidMemoryAccess>`. -/
def Mo (α : Type) : Type := Cpu → Res α

/-- Pure computation in `Mo`. -/
def Mo.pure {α : Type} (a : α) : Mo α := fun s => .ok a s

/-- Sequencing in `Mo`: faults and panics short-circuit, as `?` does. -/
def Mo.bind {α β : Type} (m : Mo α) (f : α → Mo β) : Mo β := fun s =>
  match m s with
  | .ok a s' => f a s'
  | .fault e s' => .fault e s'
  | .panic s' => .panic s'

instance : Monad Mo where
  pure := Mo.pure
  bind := Mo.bind

/-- Read the current hart state. -/
def getCpu : Mo Cpu := fun s => .ok s s

/-- Apply a pure state transformation. -/
def modifyCpu (f : Cpu → Cpu) : Mo Unit := fun s => .ok () (f s)

/-- Return `Err(e)`. -/
def throwFault {α : Type} (e : InvalidMemoryAccess) : Mo α := fun s => .fault e s

/-- A Rust panic (division by zero, a `todo` branch, an unreachable arm). -/
def panicMo {α : Type} : Mo α := fun s => .panic s

-- Flag bit positions (the `F_*` statics of the source).

/-- Bit position of the Z (zero) flag. -/
def F_ZERO : Nat := 11

/-- Bit position of the V (overflow) flag. -/
def F_OVERFLOW : Nat := 12

/-- Bit position of the C (carry) flag. -/
def F_CARRY : Nat := 13

/-- Bit position of the N (negative) flag. -/
def F_NEGATIVE : Nat := 14

/-- Bit position of the P (parity) flag. -/
def F_PARITY : Nat := 15

/-- Bit position of the A (NaN) flag. -/
def F_NAN : Nat := 16

/-- Bit position of the F (infinite) flag. -/
def F_INFINITE : Nat := 17

/-- Bit position of the R (user ring) flag. -/
def F_USER_RING : Nat := 18

/-- Bit position of the M (memory map enable) flag. -/
def F_MEMMAP_ENABLE : Nat := 19

-- Register aliases (the `R_*` statics).

/-- Program counter register index (x13). -/
def R_PC : Fin 16 := 13

/-- Stack base pointer register index (x14). -/
def R_BASE : Fin 16 := 14

/-- Stack pointer register index (x15). -/
def R_SP : Fin 16 := 15

/-- The `clear_flags!` macro of the source: `flags &= !(mask)` with the u32
complement of the given mask. -/
def clearFlagsMask (s : Cpu) (m : Nat) : Cpu :=
  { s with flags := s.flags &&& (4294967295 ^^^ m) }

/-- `Cpu::set_flag`: OR the boolean into the given bit. -/
def set_flag (s : Cpu) (flag : Nat) (val : Bool) : Cpu :=
  { s with flags := s.flags ||| (val.toNat <<< flag) }

/-- `Cpu::get_flag`. -/
def get_flag (s : Cpu) (flag : Nat) : Bool :=
  s.flags &&& (1 <<< flag) != 0

/-- `Cpu::set_carry`: clears C, then sets it to `val`. -/
def set_carry (s : Cpu) (val : Bool) : Cpu :=
  set_flag (clearFlagsMask s (1 <<< F_CARRY)) F_CARRY val

/-- `Cpu::set_user_ring`: writable only in system ring; from user ring the
source hits `todo!("interrupt on invalid access")`, a panic. -/
def set_user_ring (val : Bool) : Mo Unit := fun s =>
  if !(get_flag s F_USER_RING) then
    .ok () (set_flag (clearFlagsMask s (1 <<< F_USER_RING)) F_USER_RING val)
  else
    .panic s

/-- `Cpu::set_memmap_enable`: same guard and `todo!` panic as
`set_user_ring`. -/
def set_memmap_enable (val : Bool) : Mo Unit := fun s =>
  if !(get_flag s F_USER_RING) then
    .ok () (set_flag (clearFlagsMask s (1 <<< F_MEMMAP_ENABLE)) F_MEMMAP_ENABLE val)
  else
    .panic s

/-- `Cpu::update_flags_int`: clear Z, N, P, then set them from the 32-bit
result `x`. -/
def update_flags_int (s : Cpu) (x : Nat) : Cpu :=
  let s1 := clearFlagsMask s ((1 <<< F_ZERO) ||| (1 <<< F_NEGATIVE) ||| (1 <<< F_PARITY))
  let s2 := set_flag s1 F_ZERO (x == 0)
  let s3 := set_flag s2 F_NEGATIVE (x &&& 2147483648 != 0)
  set_flag s3 F_PARITY (x &&& 1 != 0)

/-- Equality with 0.0 on an f32 bit pattern (true exactly for ±0). -/
def f32IsZero (b : Nat) : Bool := (b &&& 2147483647) == 0

/-- `f32::is_sign_negative` on a bit pattern. -/
def f32IsNeg (b : Nat) : Bool := b &&& 2147483648 != 0

/-- `f32::is_nan` on a bit pattern. -/
def f32IsNan (b : Nat) : Bool :=
  ((b >>> 23) &&& 255) == 255 && (b &&& 8388607) != 0

/-- `f32::is_infinite` on a bit pattern. -/
def f32IsInf (b : Nat) : Bool :=
  ((b >>> 23) &&& 255) == 255 && (b &&& 8388607) == 0

/-- `Cpu::update_flags_float`: clear Z, N, A, F, then set them from the
float result (here its bit pattern). -/
def update_flags_float (s : Cpu) (x : Nat) : Cpu :=
  let s1 := clearFlagsMask s
    ((1 <<< F_ZERO) ||| (1 <<< F_NEGATIVE) ||| (1 <<< F_NAN) ||| (1 <<< F_INFINITE))
  let s2 := set_flag s1 F_ZERO (f32IsZero x)
  let s3 := set_flag s2 F_NEGATIVE (f32IsNeg x)
  let s4 := set_flag s3 F_NAN (f32IsNan x)
  set_flag s4 F_INFINITE (f32IsInf x)

/-- `Cpu::iadd`: 64-bit sum of the two operands and the carry flag; flag
protocol as in the source; low 32 bits written back to `xs[x0]`. -/
def iadd (s : Cpu) (x0 x1 : Fin 16) : Cpu :=
  let res := s.xs x0 + s.xs x1 + (get_flag s F_CARRY).toNat
  let s1 := clearFlagsMask s
    ((1 <<< F_ZERO) ||| (1 <<< F_OVERFLOW) ||| (1 <<< F_CARRY) |||
      (1 <<< F_NEGATIVE) ||| (1 <<< F_PARITY))
  let s2 := set_flag s1 F_ZERO (res % M32 == 0)
  let s3 := set_flag s2 F_NEGATIVE (res &&& 2147483648 != 0)
  let s4 := set_flag s3 F_CARRY (res &&& 4294967296 != 0)
  let s5 := set_flag s4 F_OVERFLOW
    (s.xs x0 &&& 2147483648 == s.xs x1 &&& 2147483648 &&
      s.xs x0 &&& 2147483648 != (res % M32) &&& 2147483648)
  let s6 := set_flag s5 F_PARITY (res &&& 1 != 0)
  { s6 with xs := Function.update s6.xs x0 (res % M32) }

/-- u32 bitwise NOT. -/
def not32 (x : Nat) : Nat := x ^^^ 4294967295

/-- `Cpu::isub`: complement `xs[x1]`, run `iadd`, complement `xs[x1]`
again. -/
def isub (s : Cpu) (x0 x1 : Fin 16) : Cpu :=
  let s1 := { s with xs := Function.update s.xs x1 (not32 (s.xs x1)) }
  let s2 := iadd s1 x0 x1
  { s2 with xs := Function.update s2.xs x1 (not32 (s2.xs x1)) }

/-- `Cpu::imul`: wrapping 32-bit multiply (release-profile semantics), then
integer flag update. -/
def imul (s : Cpu) (x0 x1 : Fin 16) : Cpu :=
  let v := (s.xs x0 * s.xs x1) % M32
  update_flags_int { s with xs := Function.update s.xs x0 v } v

/-- `Cpu::idiv`: unsigned divide; Rust panics on a zero divisor. -/
def idiv (x0 x1 : Fin 16) : Mo Unit := fun s =>
  if s.xs x1 == 0 then .panic s
  else
    let v := s.xs x0 / s.xs x1
    .ok () (update_flags_int { s with xs := Function.update s.xs x0 v } v)

/-- `Cpu::imod`: unsigned remainder; Rust panics on a zero divisor. -/
def imod (x0 x1 : Fin 16) : Mo Unit := fun s =>
  if s.xs x1 == 0 then .panic s
  else
    let v := s.xs x0 % s.xs x1
    .ok () (update_flags_int { s with xs := Function.update s.xs x0 v } v)

/-- `Cpu::bsl`: 64-bit left shift (zero when the amount is ≥ 32) OR'd with
the previous carry; carry is written only when the amount is exactly 1. -/
def bsl (s : Cpu) (x0 x1 : Fin 16) : Cpu :=
  let res := (if s.xs x1 < 32 then s.xs x0 <<< s.xs x1 else 0) ||| (get_flag s F_CARRY).toNat
  let s1 := clearFlagsMask s
    ((1 <<< F_ZERO) ||| (1 <<< F_CARRY) ||| (1 <<< F_NEGATIVE) ||| (1 <<< F_PARITY))
  let s2 := set_flag s1 F_ZERO (res % M32 == 0)
  let s3 := set_flag s2 F_NEGATIVE (res &&& 2147483648 != 0)
  let s4 := if s.xs x1 == 1 then set_flag s3 F_CARRY (res &&& 4294967296 != 0) else s3
  let s5 := set_flag s4 F_PARITY (res &&& 1 != 0)
  { s5 with xs := Function.update s5.xs x0 (res % M32) }

/-- `Cpu::bsr`: right-shift analogue of `bsl`; when the amount is exactly 1
the carry receives the outgoing bit 0 of the original `xs[x0]`. -/
def bsr (s : Cpu) (x0 x1 : Fin 16) : Cpu :=
  let res := (if s.xs x1 < 32 then s.xs x0 >>> s.xs x1 else 0) ||| (get_flag s F_CARRY).toNat
  let s1 := clearFlagsMask s
    ((1 <<< F_ZERO) ||| (1 <<< F_CARRY) ||| (1 <<< F_NEGATIVE) ||| (1 <<< F_PARITY))
  let s2 := set_flag s1 F_ZERO (res % M32 == 0)
  let s3 := set_flag s2 F_NEGATIVE (res &&& 2147483648 != 0)
  let s4 := if s.xs x1 == 1 then set_flag s3 F_CARRY (s.xs x0 &&& 1 != 0) else s3
  let s5 := set_flag s4 F_PARITY (res &&& 1 != 0)
  { s5 with xs := Function.update s5.xs x0 (res % M32) }

/-- `Cpu::and`. -/
def andOp (s : Cpu) (x0 x1 : Fin 16) : Cpu :=
  let v := s.xs x0 &&& s.xs x1
  update_flags_int { s with xs := Function.update s.xs x0 v } v

/-- `Cpu::or`. -/
def orOp (s : Cpu) (x0 x1 : Fin 16) : Cpu :=
  let v := s.xs x0 ||| s.xs x1
  update_flags_int { s with xs := Function.update s.xs x0 v } v

/-- `Cpu::xor`. -/
def xorOp (s : Cpu) (x0 x1 : Fin 16) : Cpu :=
  let v := s.xs x0 ^^^ s.xs x1
  update_flags_int { s with xs := Function.update s.xs x0 v } v

/-- `Cpu::move_int`. -/
def move_int (s : Cpu) (x0 x1 : Fin 16) : Cpu :=
  let v := s.xs x1
  update_flags_int { s with xs := Function.update s.xs x0 v } v

/-- `Cpu::move_float`. -/
def move_float (s : Cpu) (x0 x1 : Fin 16) : Cpu :=
  let v := s.fs x1
  update_flags_float { s with fs := Function.update s.fs x0 v } v

/-- The float operations of the source that are not defined bit-exactly
here: the four f32 arithmetic operations (on bit patterns) and the two
value conversions `f32 as u32` / `u32 as f32`. -/
structure FloatOps where
  fadd : Nat → Nat → Nat
  fsub : Nat → Nat → Nat
  fmul : Nat → Nat → Nat
  fdiv : Nat → Nat → Nat
  floatToU32 : Nat → Nat
  u32ToFloat : Nat → Nat

/-- A trivial instantiation of `FloatOps`, used to run the model on
concrete inputs whose behaviour does not depend on float arithmetic. -/
def fops0 : FloatOps := ⟨fun _ _ => 0, fun _ _ => 0, fun _ _ => 0, fun _ _ => 0,
  fun _ => 0, fun _ => 0⟩

/-- `Cpu::fadd` (result bits supplied by `FloatOps`). -/
def fadd (fo : FloatOps) (s : Cpu) (f0 f1 : Fin 16) : Cpu :=
  let v := fo.fadd (s.fs f0) (s.fs f1)
  update_flags_float { s with fs := Function.update s.fs f0 v } v

/-- `Cpu::fsub`. -/
def fsub (fo : FloatOps) (s : Cpu) (f0 f1 : Fin 16) : Cpu :=
  let v := fo.fsub (s.fs f0) (s.fs f1)
  update_flags_float { s with fs := Function.update s.fs f0 v } v

/-- `Cpu::fmul`. -/
def fmul (fo : FloatOps) (s : Cpu) (f0 f1 : Fin 16) : Cpu :=
  let v := fo.fmul (s.fs f0) (s.fs f1)
  update_flags_float { s with fs := Function.update s.fs f0 v } v

/-- `Cpu::fdiv` (floats do not fault or panic on division). -/
def fdiv (fo : FloatOps) (s : Cpu) (f0 f1 : Fin 16) : Cpu :=
  let v := fo.fdiv (s.fs f0) (s.fs f1)
  update_flags_float { s with fs := Function.update s.fs f0 v } v

/-- `Cpu::move_int_float`: `xs[x0] = fs[f1] as u32`. -/
def move_int_float (fo : FloatOps) (s : Cpu) (x0 f1 : Fin 16) : Cpu :=
  let v := fo.floatToU32 (s.fs f1)
  update_flags_int { s with xs := Function.update s.xs x0 v } v

/-- `Cpu::move_float_int`: `fs[f0] = xs[x1] as f32`. -/
def move_float_int (fo : FloatOps) (s : Cpu) (f0 x1 : Fin 16) : Cpu :=
  let v := fo.u32ToFloat (s.xs x1)
  update_flags_float { s with fs := Function.update s.fs f0 v } v

/-- `Cpu::transmute_int_float`: `xs[x0] = fs[f1].to_bits()` (the `fs`
registers already hold bit patterns). -/
def transmute_int_float (s : Cpu) (x0 f1 : Fin 16) : Cpu :=
  let v := s.fs f1
  update_flags_int { s with xs := Function.update s.xs x0 v } v

/-- `Cpu::transmute_float_int`: `fs[f0] = f32::from_bits(xs[x1])`. -/
def transmute_float_int (s : Cpu) (f0 x1 : Fin 16) : Cpu :=
  let v := s.xs x1
  update_flags_float { s with fs := Function.update s.fs f0 v } v

/-- `SimpleAddress::read`: a byte (hence `% 256`) for addresses below
0x1000000, zero beyond. -/
def addressRead (a : Nat) : Mo Nat := fun s =>
  .ok (if a < PMEM then s.mem a % 256 else 0) s

/-- `SimpleAddress::write`: stores a byte below 0x1000000, silently drops
the write beyond. -/
def addressWrite (a d : Nat) : Mo Unit := fun s =>
  .ok () (if a < PMEM then { s with mem := Function.update s.mem a (d % 256) } else s)

/-- `Cpu::check_memory`: identity translation with the M flag clear;
otherwise the two-level page-table walk of the source.  All u32 address
arithmetic wraps (`% M32`). -/
def check_memory (addr permissions : Nat) : Mo Nat := do
  let s ← getCpu
  if s.flags &&& (1 <<< F_MEMMAP_ENABLE) != 0 then
    let ta := s.memmap
    let b0 ← addressRead ((ta + (addr >>> 24)) % M32)
    let b1 ← addressRead ((ta + (addr >>> 24) + 1) % M32)
    let b2 ← addressRead ((ta + (addr >>> 24) + 2) % M32)
    let b3 ← addressRead ((ta + (addr >>> 24) + 3) % M32)
    let t2 := b0 ||| b1 <<< 8 ||| b2 <<< 16 ||| b3 <<< 24
    if t2 == 0 then
      throwFault .UsedFreePage
    else
      let c0 ← addressRead ((t2 + (addr >>> 16 &&& 255)) % M32)
      let c1 ← addressRead ((t2 + (addr >>> 16 &&& 255) + 1) % M32)
      let c2 ← addressRead ((t2 + (addr >>> 16 &&& 255) + 2) % M32)
      let c3 ← addressRead ((t2 + (addr >>> 16 &&& 255) + 3) % M32)
      let a2 := ((c0 ||| c1 <<< 8 ||| c2 <<< 16 ||| c3 <<< 24) + (addr &&& 65535)) % M32
      let p := (a2 &&& 4026531840) >>> 28
      let a3 := a2 &&& 268435455
      if p &&& 8 == 0 then
        throwFault .UsedFreePage
      else if p &&& permissions != permissions then
        throwFault (.InvalidPermissions p permissions)
      else
        pure a3
  else
    pure addr

/-- `Cpu::exec`: translate the PC with EXEC permission, read the byte,
advance the PC (wrapping). -/
def exec : Mo Nat := do
  let s ← getCpu
  let addr ← check_memory (s.xs R_PC) EXEC
  let res ← addressRead addr
  modifyCpu fun s' => { s' with xs := Function.update s'.xs R_PC ((s'.xs R_PC + 1) % M32) }
  pure res

/-- `Cpu::read`: translate with READ permission, then read. -/
def readMem (addr : Nat) : Mo Nat := do
  let a ← check_memory addr READ
  addressRead a

/-- `Cpu::write`: translate with WRITE permission, then write. -/
def writeMem (addr d : Nat) : Mo Unit := do
  let a ← check_memory addr WRITE
  addressWrite a d

/-- The four-byte little-endian operand fetch that the source repeats
inline in `call`, the branches, the loads and the stores. -/
def fetch32 : Mo Nat := do
  let a0 ← exec
  let a1 ← exec
  let a2 ← exec
  let a3 ← exec
  pure (a0 ||| a1 <<< 8 ||| a2 <<< 16 ||| a3 <<< 24)

/-- One iteration of the push loops in `Cpu::call`: write the byte at the
stack pointer, then decrement the stack pointer (wrapping u32). -/
def push (b : Nat) : Mo Unit := do
  let s ← getCpu
  writeMem (s.xs R_SP) b
  modifyCpu fun s' =>
    { s' with xs := Function.update s'.xs R_SP ((s'.xs R_SP + (M32 - 1)) % M32) }

/-- `Cpu::call`: fetch the 32-bit target, push BASE then PC (LSB first,
stack growing downward), set BASE to SP and jump. -/
def call : Mo Unit := do
  let addr ← fetch32
  let s ← getCpu
  let d := s.xs R_BASE
  push (d % 256)
  push ((d >>> 8) % 256)
  push ((d >>> 16) % 256)
  push ((d >>> 24) % 256)
  let s2 ← getCpu
  let d2 := s2.xs R_PC
  push (d2 % 256)
  push ((d2 >>> 8) % 256)
  push ((d2 >>> 16) % 256)
  push ((d2 >>> 24) % 256)
  modifyCpu fun s3 => { s3 with xs := Function.update s3.xs R_BASE (s3.xs R_SP) }
  modifyCpu fun s4 => { s4 with xs := Function.update s4.xs R_PC addr }

/-- Increment BASE (wrapping), as each pop iteration of `Cpu::ret` does. -/
def incBase : Mo Unit :=
  modifyCpu fun s => { s with xs := Function.update s.xs R_BASE ((s.xs R_BASE + 1) % M32) }

/-- One iteration of the PC pop loop in `Cpu::ret`: increment BASE, shift
PC left by 8 (u32, wrapping), OR in the byte read at BASE. -/
def retStepPC : Mo Unit := do
  incBase
  modifyCpu fun s => { s with xs := Function.update s.xs R_PC ((s.xs R_PC <<< 8) % M32) }
  let s ← getCpu
  let b ← readMem (s.xs R_BASE)
  modifyCpu fun s' => { s' with xs := Function.update s'.xs R_PC (s'.xs R_PC ||| b) }

/-- `Cpu::ret`: zero PC, pop its four bytes MSB-first by walking BASE
upward, pop the saved BASE the same way into a scratch accumulator, then
restore SP and BASE. -/
def ret : Mo Unit := do
  modifyCpu fun s => { s with xs := Function.update s.xs R_PC 0 }
  retStepPC
  retStepPC
  retStepPC
  retStepPC
  incBase
  let s1 ← getCpu
  let b1 ← readMem (s1.xs R_BASE)
  let d1 := ((0 <<< 8) % M32) ||| b1
  incBase
  let s2 ← getCpu
  let b2 ← readMem (s2.xs R_BASE)
  let d2 := ((d1 <<< 8) % M32) ||| b2
  incBase
  let s3 ← getCpu
  let b3 ← readMem (s3.xs R_BASE)
  let d3 := ((d2 <<< 8) % M32) ||| b3
  incBase
  let s4 ← getCpu
  let b4 ← readMem (s4.xs R_BASE)
  let d4 := ((d3 <<< 8) % M32) ||| b4
  modifyCpu fun s5 => { s5 with xs := Function.update s5.xs R_SP (s5.xs R_BASE) }
  modifyCpu fun s6 => { s6 with xs := Function.update s6.xs R_BASE d4 }

/-- `Cpu::branch_true`: fetch the 32-bit target; jump if the flag is set. -/
def branch_true (flag : Nat) : Mo Unit := do
  let addr ← fetch32
  let s ← getCpu
  if s.flags &&& (1 <<< flag) != 0 then
    modifyCpu fun s' => { s' with xs := Function.update s'.xs R_PC addr }
  else
    pure ()

/-- `Cpu::branch_false`: fetch the 32-bit target; jump if the flag is
clear. -/
def branch_false (flag : Nat) : Mo Unit := do
  let addr ← fetch32
  let s ← getCpu
  if s.flags &&& (1 <<< flag) == 0 then
    modifyCpu fun s' => { s' with xs := Function.update s'.xs R_PC addr }
  else
    pure ()

/-- `Cpu::load_lit_int`. -/
def load_lit_int (x0 : Fin 16) : Mo Unit := do
  let d ← fetch32
  modifyCpu fun s => update_flags_int { s with xs := Function.update s.xs x0 d } d

/-- `Cpu::load_lit_float` (`f32::from_bits` keeps the bit pattern). -/
def load_lit_float (f0 : Fin 16) : Mo Unit := do
  let d ← fetch32
  modifyCpu fun s => update_flags_float { s with fs := Function.update s.fs f0 d } d

/-- Four-byte little-endian data load through the MMU, the pattern the
source repeats inline in `load_int`, `load_float` and the indirect loads.
The address increments wrap (u32). -/
def read32 (addr : Nat) : Mo Nat := do
  let b0 ← readMem addr
  let b1 ← readMem ((addr + 1) % M32)
  let b2 ← readMem ((addr + 2) % M32)
  let b3 ← readMem ((addr + 3) % M32)
  pure (b0 ||| b1 <<< 8 ||| b2 <<< 16 ||| b3 <<< 24)

/-- `Cpu::load_int`. -/
def load_int (x0 : Fin 16) : Mo Unit := do
  let addr ← fetch32
  let d ← read32 addr
  modifyCpu fun s => update_flags_int { s with xs := Function.update s.xs x0 d } d

/-- `Cpu::load_float`. -/
def load_float (f0 : Fin 16) : Mo Unit := do
  let addr ← fetch32
  let d ← read32 addr
  modifyCpu fun s => update_flags_float { s with fs := Function.update s.fs f0 d } d

/-- `Cpu::load_indirect_int`. -/
def load_indirect_int (x0 addr : Fin 16) : Mo Unit := do
  let s ← getCpu
  let d ← read32 (s.xs addr)
  modifyCpu fun s' => update_flags_int { s' with xs := Function.update s'.xs x0 d } d

/-- `Cpu::load_indirect_float`. -/
def load_indirect_float (f0 addr : Fin 16) : Mo Unit := do
  let s ← getCpu
  let d ← read32 (s.xs addr)
  modifyCpu fun s' => update_flags_float { s' with fs := Function.update s'.fs f0 d } d

/-- Four-byte little-endian store through the MMU (the register file is
never changed by `writeMem`, so reading the source value once is
faithful to the source's repeated `self.xs[x0]` reads). -/
def write32 (addr v : Nat) : Mo Unit := do
  writeMem addr (v % 256)
  writeMem ((addr + 1) % M32) ((v >>> 8) % 256)
  writeMem ((addr + 2) % M32) ((v >>> 16) % 256)
  writeMem ((addr + 3) % M32) ((v >>> 24) % 256)

/-- `Cpu::store_indirect_int`. -/
def store_indirect_int (x0 addr : Fin 16) : Mo Unit := do
  let s ← getCpu
  write32 (s.xs addr) (s.xs x0)

/-- `Cpu::store_indirect_short`. -/
def store_indirect_short (x0 addr : Fin 16) : Mo Unit := do
  let s ← getCpu
  writeMem (s.xs addr) (s.xs x0 % 256)
  writeMem ((s.xs addr + 1) % M32) ((s.xs x0 >>> 8) % 256)

/-- `Cpu::store_indirect_byte`. -/
def store_indirect_byte (x0 addr : Fin 16) : Mo Unit := do
  let s ← getCpu
  writeMem (s.xs addr) (s.xs x0 % 256)

/-- `Cpu::store_indirect_float`. -/
def store_indirect_float (f0 addr : Fin 16) : Mo Unit := do
  let s ← getCpu
  write32 (s.xs addr) (s.fs f0)

/-- `Cpu::store_int`. -/
def store_int (x0 : Fin 16) : Mo Unit := do
  let addr ← fetch32
  let s ← getCpu
  write32 addr (s.xs x0)

/-- `Cpu::store_short`. -/
def store_short (x0 : Fin 16) : Mo Unit := do
  let addr ← fetch32
  let s ← getCpu
  writeMem addr (s.xs x0 % 256)
  writeMem ((addr + 1) % M32) ((s.xs x0 >>> 8) % 256)

/-- `Cpu::store_byte`. -/
def store_byte (x0 : Fin 16) : Mo Unit := do
  let addr ← fetch32
  let s ← getCpu
  writeMem addr (s.xs x0 % 256)

/-- `Cpu::store_float`. -/
def store_float (f0 : Fin 16) : Mo Unit := do
  let addr ← fetch32
  let s ← getCpu
  write32 addr (s.fs f0)

/-- Low nibble of a byte as a register index. -/
def loNib (n : Nat) : Fin 16 :=
  ⟨n &&& 15, Nat.lt_succ_of_le (Nat.and_le_right)⟩

/-- High nibble of a byte as a register index. -/
def hiNib (n : Nat) : Fin 16 :=
  ⟨(n &&& 240) >>> 4, by
    have ha : n &&& 240 ≤ 240 := Nat.and_le_right
    have h : (n &&& 240) >>> 4 = (n &&& 240) / 16 := by
      simp [Nat.shiftRight_eq_div_pow]
    omega⟩

/-- The no-operand form of `Cpu::decode_instruction` (top bits 0b00),
dispatching on the low six opcode bits; sub-opcodes the source does not
list are no-ops. -/
def decode00 (sub : Nat) : Mo Unit :=
  if sub == 0 then modifyCpu fun s => set_carry s false
  else if sub == 1 then modifyCpu fun s => set_carry s true
  else if sub == 2 then set_memmap_enable false
  else if sub == 3 then set_memmap_enable true
  else if sub == 5 then set_user_ring true
  else if sub == 6 then call
  else if sub == 7 then ret
  else if sub == 8 then branch_true F_ZERO
  else if sub == 9 then branch_true F_OVERFLOW
  else if sub == 10 then branch_true F_CARRY
  else if sub == 11 then branch_true F_NEGATIVE
  else if sub == 12 then branch_true F_PARITY
  else if sub == 13 then branch_true F_NAN
  else if sub == 14 then branch_true F_INFINITE
  else if sub == 15 then branch_true F_MEMMAP_ENABLE
  else if sub == 16 then branch_false F_ZERO
  else if sub == 17 then branch_false F_OVERFLOW
  else if sub == 18 then branch_false F_CARRY
  else if sub == 19 then branch_false F_NEGATIVE
  else if sub == 20 then branch_false F_PARITY
  else if sub == 21 then branch_false F_NAN
  else if sub == 22 then branch_false F_INFINITE
  else if sub == 23 then branch_false F_MEMMAP_ENABLE
  else Mo.pure ()

/-- The one-register-plus-immediate load form (top bits 0b01); the default
arm is the source's `unreachable!` (never hit, since `op &&& 48` only
takes the four listed values). -/
def decode40 (op : Nat) : Mo Unit :=
  if op &&& 48 == 0 then load_lit_int (loNib op)
  else if op &&& 48 == 16 then load_lit_float (loNib op)
  else if op &&& 48 == 32 then load_int (loNib op)
  else if op &&& 48 == 48 then load_float (loNib op)
  else panicMo

/-- The two-register form's dispatch (top bits 0b10) once the operand byte
has been fetched. -/
def decode80 (fo : FloatOps) (sub : Nat) (fst snd : Fin 16) : Mo Unit :=
  if sub == 0 then modifyCpu fun s => iadd s fst snd
  else if sub == 1 then modifyCpu fun s => isub s fst snd
  else if sub == 2 then modifyCpu fun s => imul s fst snd
  else if sub == 3 then idiv fst snd
  else if sub == 4 then imod fst snd
  else if sub == 5 then modifyCpu fun s => fadd fo s fst snd
  else if sub == 6 then modifyCpu fun s => fsub fo s fst snd
  else if sub == 7 then modifyCpu fun s => fmul fo s fst snd
  else if sub == 8 then modifyCpu fun s => fdiv fo s fst snd
  else if sub == 9 then modifyCpu fun s => bsl s fst snd
  else if sub == 10 then modifyCpu fun s => bsr s fst snd
  else if sub == 11 then modifyCpu fun s => andOp s fst snd
  else if sub == 12 then modifyCpu fun s => orOp s fst snd
  else if sub == 13 then modifyCpu fun s => xorOp s fst snd
  else if sub == 14 then modifyCpu fun s => move_int s fst snd
  else if sub == 15 then modifyCpu fun s => move_float s fst snd
  else if sub == 16 then modifyCpu fun s => move_int_float fo s fst snd
  else if sub == 17 then modifyCpu fun s => move_float_int fo s fst snd
  else if sub == 18 then modifyCpu fun s => transmute_int_float s fst snd
  else if sub == 19 then modifyCpu fun s => transmute_float_int s fst snd
  else if sub == 20 then load_indirect_int fst snd
  else if sub == 21 then load_indirect_float fst snd
  else if sub == 22 then store_indirect_int fst snd
  else if sub == 23 then store_indirect_short fst snd
  else if sub == 24 then store_indirect_byte fst snd
  else if sub == 25 then store_indirect_float fst snd
  else Mo.pure ()

/-- The one-register-plus-immediate store form (top bits 0b11). -/
def decodeC0 (op : Nat) : Mo Unit :=
  if op &&& 48 == 0 then store_int (loNib op)
  else if op &&& 48 == 16 then store_short (loNib op)
  else if op &&& 48 == 32 then store_byte (loNib op)
  else if op &&& 48 == 48 then store_float (loNib op)
  else panicMo

/-- `Cpu::decode_instruction`, written as the same first-match cascade as
the source's nested `match` (each of the four encoding forms is factored
into its own definition above; the final arm is the source's outer
`unreachable!`, never hit since `opcode &&& 192` only takes the four
listed values). -/
def decode_instruction (fo : FloatOps) (opcode : Nat) : Mo Unit :=
  if opcode &&& 192 == 0 then decode00 (opcode &&& 63)
  else if opcode &&& 192 == 64 then decode40 opcode
  else if opcode &&& 192 == 128 then do
    let d ← exec
    decode80 fo (opcode &&& 63) (hiNib d) (loNib d)
  else if opcode &&& 192 == 192 then decodeC0 opcode
  else panicMo

/-- `Cpu::step`: fetch one opcode byte and dispatch. -/
def step (fo : FloatOps) : Mo Unit := do
  let opcode ← exec
  decode_instruction fo opcode

/-! Pure specification-side functions (readers over an unchanged state),
used to state the MMU walk claims. -/

/-- Pure view of a backend byte read. -/
def readByteP (s : Cpu) (a : Nat) : Nat :=
  if a < PMEM then s.mem a % 256 else 0

/-- Pure view of a 32-bit little-endian load of a page-table entry at the
(wrapping) base address `a`. -/
def le32at (s : Cpu) (a : Nat) : Nat :=
  readByteP s (a % M32) ||| readByteP s ((a + 1) % M32) <<< 8 |||
    readByteP s ((a + 2) % M32) <<< 16 ||| readByteP s ((a + 3) % M32) <<< 24

/-- The enabled-MMU walk as claim C1 words it: the permission nibble is
taken from the top four bits of the second-level entry `E` itself, and the
physical address is `(E &&& 0x0fffffff) + (vaddr &&& 0xffff)` (no further
truncation). -/
def mmuWalkClaimC1 (s : Cpu) (vaddr perm : Nat) : Res Nat :=
  let t2 := le32at s (s.memmap + (vaddr >>> 24))
  if t2 = 0 then .fault .UsedFreePage s
  else
    let e := le32at s (t2 + (vaddr >>> 16 &&& 255))
    let p := e >>> 28
    let pa := (e &&& 268435455) + (vaddr &&& 65535)
    if p &&& 8 = 0 then .fault .UsedFreePage s
    else if p &&& perm ≠ perm then .fault (.InvalidPermissions p perm) s
    else .ok pa s

/-- The enabled-MMU walk as the source actually computes it: the sum
`S = (E + (vaddr &&& 0xffff)) mod 2^32` is formed first; the permission
nibble is the top four bits of `S` and the physical address is the low 28
bits of `S`. -/
def mmuWalkAmended (s : Cpu) (vaddr perm : Nat) : Res Nat :=
  let t2 := le32at s (s.memmap + (vaddr >>> 24))
  if t2 = 0 then .fault .UsedFreePage s
  else
    let sum := (le32at s (t2 + (vaddr >>> 16 &&& 255)) + (vaddr &&& 65535)) % M32
    let p := sum >>> 28
    let pa := sum % 268435456
    if p &&& 8 = 0 then .fault .UsedFreePage s
    else if p &&& perm ≠ perm then .fault (.InvalidPermissions p perm) s
    else .ok pa s

/-- A computation that returns the hart unchanged in every outcome. -/
def Keeps {α : Type} (m : Mo α) : Prop := ∀ s, (m s).cpu = s

/-- A computation that preserves the low eleven bits of the flags word in
every outcome. -/
def PresIM {α : Type} (m : Mo α) : Prop :=
  ∀ s, (m s).cpu.flags &&& 2047 = s.flags &&& 2047

/-! Concrete hart states used by the counterexamples and witnesses. -/

/-- The all-zero hart (the constructor state `Cpu::new`). -/
def cpu0 : Cpu := ⟨fun _ => 0, fun _ => 0, 0, 0, fun _ => 0⟩

/-- Set one integer register. -/
def setX (s : Cpu) (i : Fin 16) (v : Nat) : Cpu :=
  { s with xs := Function.update s.xs i v }

/-- Set one memory byte. -/
def setB (s : Cpu) (a v : Nat) : Cpu :=
  { s with mem := Function.update s.mem a v }

/-- Page tables for the C1 counterexample: top-level entry 0x100 at
address 0, second-level entry 0x8FFFFFFF at address 0x100. -/
def cex1mem : Nat → Nat := fun a =>
  if a = 1 then 1 else if a = 256 then 255 else if a = 257 then 255
  else if a = 258 then 255 else if a = 259 then 143 else 0

/-- C1 counterexample state: MMU on, `memmap = 0`, tables as `cex1mem`. -/
def cex1 : Cpu := ⟨fun _ => 0, fun _ => 0, 1 <<< F_MEMMAP_ENABLE, 0, cex1mem⟩

/-- C3 counterexample state: `xs[0] = 5`. -/
def cex3 : Cpu := setX cpu0 0 5

/-- C4 counterexample state: `xs[0] = 5`, `xs[1] = 0`, instruction stream
`83 01` at PC 0 (IDIV of register 0 by register 1). -/
def cex4 : Cpu := setB (setB (setX cpu0 0 5) 0 131) 1 1

/-- C7 counterexample state: user ring (R = 1), opcode 0x03
(set memmap enable) at PC 0. -/
def cex7 : Cpu := ⟨fun _ => 0, fun _ => 0, 1 <<< F_USER_RING, 0, Function.update (fun _ => 0) 0 3⟩

/-- Witness state for the division claims: `xs[0] = 29`, `xs[1] = 4`. -/
def wdiv : Cpu := setX (setX cpu0 0 29) 1 4

/-- Witness state for the call/ret claim, from the repository's own
`cpu_call_ret` test: PC 0x1234, BASE 0xBFFF, SP 0xBFC8, immediate bytes
`42 AF 00 00` at 0x1234. -/
def wcall : Cpu :=
  setB (setB (setX (setX (setX cpu0 R_PC 4660) R_BASE 49151) R_SP 49096) 4660 66) 4661 175

/-- Witness state for the MMU claims, from the repository's `cpu_memmap`
test: MMU on, `memmap = 0x1234`, top entry 0x0B0A, second entry
0xA000EE00. -/
def wmmu : Cpu :=
  let s : Cpu := ⟨fun _ => 0, fun _ => 0, 1 <<< F_MEMMAP_ENABLE, 4660, fun _ => 0⟩
  setB (setB (setB (setB (setB (setB (setB (setB s 4660 10) 4661 11) 4662 0) 4663 0)
    2826 0) 2827 238) 2828 0) 2829 160

/-- The 32-bit little-endian word fetched at the PC (used to state the
effect of `call`). -/
def fetched32 (s : Cpu) : Nat :=
  readByteP s (s.xs R_PC) ||| readByteP s ((s.xs R_PC + 1) % M32) <<< 8 |||
    readByteP s ((s.xs R_PC + 2) % M32) <<< 16 ||| readByteP s ((s.xs R_PC + 3) % M32) <<< 24

/-- Byte view of a raw memory function, as `SimpleAddress::read` exposes
it. -/
def memByte (m : Nat → Nat) (a : Nat) : Nat := if a < PMEM then m a % 256 else 0

end Cpuwu

namespace Cpuwu

/-! Bit-level helper lemmas. -/

theorem M32_eq : M32 = 2 ^ 32 := by norm_num [M32]

theorem one_shiftLeft (k : Nat) : (1 : Nat) <<< k = 2 ^ k := by
  simp [Nat.shiftLeft_eq]

theorem get_flag_testBit (s : Cpu) (f : Nat) : get_flag s f = s.flags.testBit f := by
  unfold get_flag
  rw [one_shiftLeft, Nat.and_two_pow]
  cases h : s.flags.testBit f <;> simp [h, Nat.pos_iff_ne_zero]

theorem testBit_bool_shift (b : Bool) (k i : Nat) :
    (b.toNat <<< k).testBit i = (decide (i = k) && b) := by
  cases b
  · simp
  · rw [show (true.toNat) = 1 from rfl, one_shiftLeft, Nat.testBit_two_pow]
    simp [eq_comm]

theorem testBit_set_flag (s : Cpu) (f' : Nat) (v : Bool) (i : Nat) :
    (set_flag s f' v).flags.testBit i = (s.flags.testBit i || (decide (i = f') && v)) := by
  simp only [set_flag, Nat.testBit_or, testBit_bool_shift]

theorem allOnes32 : (4294967295 : Nat) = 2 ^ 32 - 1 := by norm_num

theorem testBit_clearFlagsMask (s : Cpu) (m i : Nat) (hm : m < 4294967296) :
    (clearFlagsMask s m).flags.testBit i =
      (s.flags.testBit i && (decide (i < 32) && !(m.testBit i))) := by
  simp only [clearFlagsMask, Nat.testBit_and, Nat.testBit_xor, allOnes32,
    Nat.testBit_two_pow_sub_one]
  rcases Nat.lt_or_ge i 32 with h | h
  · rw [decide_eq_true h]
    cases s.flags.testBit i <;> cases m.testBit i <;> rfl
  · have hmi : m.testBit i = false :=
      Nat.testBit_lt_two_pow (Nat.lt_of_lt_of_le (by norm_num at hm ⊢; exact hm)
        (Nat.pow_le_pow_right (by norm_num) h))
    have hd : decide (i < 32) = false := decide_eq_false (Nat.not_lt.mpr h)
    rw [hmi, hd]
    cases s.flags.testBit i <;> rfl

theorem and_msb_ne (x : Nat) : (x &&& 2147483648 != 0) = x.testBit 31 := by
  rw [show (2147483648 : Nat) = 2 ^ 31 from by norm_num, Nat.and_two_pow]
  cases h : x.testBit 31 <;> simp [h, Nat.pos_iff_ne_zero]

theorem and_b32_ne (x : Nat) : (x &&& 4294967296 != 0) = x.testBit 32 := by
  rw [show (4294967296 : Nat) = 2 ^ 32 from by norm_num, Nat.and_two_pow]
  cases h : x.testBit 32 <;> simp [h, Nat.pos_iff_ne_zero]

theorem and_one_ne (x : Nat) : (x &&& 1 != 0) = x.testBit 0 := by
  rw [show (1 : Nat) = 2 ^ 0 from rfl, Nat.and_two_pow]
  cases h : x.testBit 0 <;> simp [h]

theorem testBit_one_shift (k i : Nat) : ((1 : Nat) <<< k).testBit i = decide (k = i) := by
  rw [one_shiftLeft, Nat.testBit_two_pow]

theorem testBit_two_pow_ne (c k j : Nat) (hc : c = 2 ^ k) (hj : k ≠ j) :
    c.testBit j = false := by
  subst hc
  rw [Nat.testBit_two_pow]
  simp [hj]

theorem and_msb_beq (x y : Nat) :
    (x &&& 2147483648 == y &&& 2147483648) = (x.testBit 31 == y.testBit 31) := by
  rw [show (2147483648 : Nat) = 2 ^ 31 from by norm_num, Nat.and_two_pow, Nat.and_two_pow]
  cases h1 : x.testBit 31 <;> cases h2 : y.testBit 31 <;> simp [h1, h2]

theorem and_msb_eq_iff (x y : Nat) :
    (x &&& 2147483648 = y &&& 2147483648) ↔ (x.testBit 31 = y.testBit 31) := by
  rw [show (2147483648 : Nat) = 2 ^ 31 from by norm_num, Nat.and_two_pow, Nat.and_two_pow]
  cases h1 : x.testBit 31 <;> cases h2 : y.testBit 31 <;> simp [h1, h2]

theorem mod_testBit31 (x : Nat) : (x % M32).testBit 31 = x.testBit 31 := by
  rw [M32_eq, Nat.testBit_mod_two_pow]
  rfl

theorem mod_M32_mod_two (x : Nat) : x % M32 % 2 = x % 2 :=
  Nat.mod_mod_of_dvd x (by norm_num [M32])

@[simp] theorem set_flag_xs (s : Cpu) (f : Nat) (v : Bool) : (set_flag s f v).xs = s.xs := rfl

@[simp] theorem set_flag_fs (s : Cpu) (f : Nat) (v : Bool) : (set_flag s f v).fs = s.fs := rfl

@[simp] theorem set_flag_mem (s : Cpu) (f : Nat) (v : Bool) : (set_flag s f v).mem = s.mem := rfl

@[simp] theorem set_flag_memmap (s : Cpu) (f : Nat) (v : Bool) :
    (set_flag s f v).memmap = s.memmap := rfl

@[simp] theorem clearFlagsMask_xs (s : Cpu) (m : Nat) : (clearFlagsMask s m).xs = s.xs := rfl

@[simp] theorem clearFlagsMask_fs (s : Cpu) (m : Nat) : (clearFlagsMask s m).fs = s.fs := rfl

@[simp] theorem clearFlagsMask_mem (s : Cpu) (m : Nat) : (clearFlagsMask s m).mem = s.mem := rfl

@[simp] theorem clearFlagsMask_memmap (s : Cpu) (m : Nat) :
    (clearFlagsMask s m).memmap = s.memmap := rfl

@[simp] theorem update_flags_int_xs (s : Cpu) (x : Nat) :
    (update_flags_int s x).xs = s.xs := rfl

@[simp] theorem update_flags_int_fs (s : Cpu) (x : Nat) :
    (update_flags_int s x).fs = s.fs := rfl

@[simp] theorem update_flags_int_mem (s : Cpu) (x : Nat) :
    (update_flags_int s x).mem = s.mem := rfl

@[simp] theorem update_flags_int_memmap (s : Cpu) (x : Nat) :
    (update_flags_int s x).memmap = s.memmap := rfl

@[simp] theorem update_flags_float_xs (s : Cpu) (x : Nat) :
    (update_flags_float s x).xs = s.xs := rfl

@[simp] theorem update_flags_float_fs (s : Cpu) (x : Nat) :
    (update_flags_float s x).fs = s.fs := rfl

@[simp] theorem update_flags_float_mem (s : Cpu) (x : Nat) :
    (update_flags_float s x).mem = s.mem := rfl

@[simp] theorem update_flags_float_memmap (s : Cpu) (x : Nat) :
    (update_flags_float s x).memmap = s.memmap := rfl

/-- Claim C2: IADD computes the 64-bit sum of the two source registers and
the carry flag, writes its low 32 bits to the destination, and the five
arithmetic flags Z, N, C, V, P take exactly the stated values (the prior
flag contents do not leak into them). -/
theorem c2_iadd_correct (s : Cpu) (x0 x1 : Fin 16) :
    (iadd s x0 x1).xs x0 = (s.xs x0 + s.xs x1 + (get_flag s F_CARRY).toNat) % M32 ∧
    (get_flag (iadd s x0 x1) F_ZERO = true ↔
      (s.xs x0 + s.xs x1 + (get_flag s F_CARRY).toNat) % M32 = 0) ∧
    (get_flag (iadd s x0 x1) F_NEGATIVE = true ↔
      ((s.xs x0 + s.xs x1 + (get_flag s F_CARRY).toNat) % M32).testBit 31 = true) ∧
    (get_flag (iadd s x0 x1) F_CARRY = true ↔
      (s.xs x0 + s.xs x1 + (get_flag s F_CARRY).toNat).testBit 32 = true) ∧
    (get_flag (iadd s x0 x1) F_OVERFLOW = true ↔
      ((s.xs x0).testBit 31 = (s.xs x1).testBit 31 ∧
        ¬((s.xs x0).testBit 31 =
          ((s.xs x0 + s.xs x1 + (get_flag s F_CARRY).toNat) % M32).testBit 31))) ∧
    (get_flag (iadd s x0 x1) F_PARITY = true ↔
      ((s.xs x0 + s.xs x1 + (get_flag s F_CARRY).toNat) % M32).testBit 0 = true) := by
  refine ⟨by simp [iadd], ?_, ?_, ?_, ?_, ?_⟩ <;>
  · simp only [iadd, F_ZERO, F_NEGATIVE, F_CARRY, F_OVERFLOW, F_PARITY,
      get_flag_testBit, testBit_set_flag,
      and_msb_ne, and_b32_ne, and_one_ne, and_msb_beq]
    simp [testBit_clearFlagsMask,
      show (63488 : Nat).testBit 11 = true from by decide,
      show (63488 : Nat).testBit 12 = true from by decide,
      show (63488 : Nat).testBit 13 = true from by decide,
      show (63488 : Nat).testBit 14 = true from by decide,
      show (63488 : Nat).testBit 15 = true from by decide,
      mod_testBit31, mod_M32_mod_two, and_msb_eq_iff]

theorem testBit_toNat_ne_zero (b : Bool) (i : Nat) (h : i ≠ 0) : b.toNat.testBit i = false := by
  cases b
  · simp
  · rw [show (true.toNat) = 1 from rfl, show (1 : Nat) = 2 ^ 0 from rfl, Nat.testBit_two_pow]
    simpa using fun hh => (h hh.symm).elim

theorem toNat_mod_two_eq_one (b : Bool) : (b.toNat % 2 = 1) ↔ b = true := by
  cases b <;> simp

theorem shiftRight_one_mod_two (x : Nat) : (x >>> 1 % 2 = 1) ↔ x.testBit 1 = true := by
  rw [Nat.testBit_to_div_mod, Nat.shiftRight_eq_div_pow]
  norm_num

theorem not32_not32 (x : Nat) : not32 (not32 x) = x := by
  unfold not32
  rw [Nat.xor_assoc, Nat.xor_self, Nat.xor_zero]

theorem iadd_xs (s : Cpu) (x0 x1 : Fin 16) :
    (iadd s x0 x1).xs =
      Function.update s.xs x0 ((s.xs x0 + s.xs x1 + (get_flag s F_CARRY).toNat) % M32) := rfl

/-- Claim C3, amended to distinct register indices: for `a ≠ b`, `ISUB(a, b)`
equals `IADD(a, ~b)` (run on the state whose register `b` holds the
complement, with the same entry carry) followed by restoring register `b`,
which therefore holds its entry value on exit. -/
theorem c3_isub_amended (s : Cpu) (x0 x1 : Fin 16) (h : x0 ≠ x1) :
    isub s x0 x1 =
      { iadd { s with xs := Function.update s.xs x1 (not32 (s.xs x1)) } x0 x1 with
        xs := Function.update
          (iadd { s with xs := Function.update s.xs x1 (not32 (s.xs x1)) } x0 x1).xs
          x1 (s.xs x1) } ∧
    (isub s x0 x1).xs x1 = s.xs x1 := by
  have hx : (iadd { s with xs := Function.update s.xs x1 (not32 (s.xs x1)) } x0 x1).xs x1 =
      not32 (s.xs x1) := by
    rw [iadd_xs, Function.update_noteq (Ne.symm h)]
    simp
  constructor
  · show ({ iadd { s with xs := Function.update s.xs x1 (not32 (s.xs x1)) } x0 x1 with
        xs := Function.update
          (iadd { s with xs := Function.update s.xs x1 (not32 (s.xs x1)) } x0 x1).xs
          x1 (not32 ((iadd { s with xs := Function.update s.xs x1 (not32 (s.xs x1)) } x0 x1).xs x1)) } : Cpu) = _
    rw [hx, not32_not32]
  · show (Function.update
        (iadd { s with xs := Function.update s.xs x1 (not32 (s.xs x1)) } x0 x1).xs
        x1 (not32 ((iadd { s with xs := Function.update s.xs x1 (not32 (s.xs x1)) } x0 x1).xs x1))) x1 = s.xs x1
    rw [hx, not32_not32, Function.update_same]

/-- Witness for claim C3's amended theorem at register indices 0 and 1 on
the state `cex3` (`xs[0] = 5`): register 1 is restored on exit. -/
theorem c3_isub_amended_witness :
    (0 : Fin 16) ≠ 1 ∧ (isub cex3 0 1).xs 1 = cex3.xs 1 :=
  ⟨by decide, (c3_isub_amended cex3 0 1 (by decide)).2⟩

/-- Counterexample for claim C3 as stated: with equal indices (a = b = 0)
and `xs[0] = 5`, ISUB leaves 11 in `xs[0]`, not the entry value 5, so the
register is not restored byte-identical for all index pairs. -/
theorem c3_isub_counterexample :
    (isub cex3 0 0).xs 0 = 11 ∧ cex3.xs 0 = 5 ∧ ¬((isub cex3 0 0).xs 0 = cex3.xs 0) :=
  ⟨by decide, by decide, by decide⟩

/-- Claim C5: BSL saturates to the carry-only value for shift amounts ≥ 32
and computes `((a <<< n) ||| C) mod 2^32` for n < 32; for both BSL and BSR
the carry flag is written only when the shift amount is exactly 1 (from the
outgoing bit 31 resp. bit 0 of the original operand) and is left cleared
for every other amount; Z, N, P are updated from the low 32 bits of the
result. -/
theorem c5_shift_saturation_carry (s : Cpu) (x0 x1 : Fin 16) :
    (32 ≤ s.xs x1 → (bsl s x0 x1).xs x0 = (get_flag s F_CARRY).toNat) ∧
    (s.xs x1 < 32 →
      (bsl s x0 x1).xs x0 = ((s.xs x0 <<< s.xs x1) ||| (get_flag s F_CARRY).toNat) % M32) ∧
    (get_flag (bsl s x0 x1) F_CARRY = true ↔
      (s.xs x1 = 1 ∧ (s.xs x0).testBit 31 = true)) ∧
    (get_flag (bsr s x0 x1) F_CARRY = true ↔
      (s.xs x1 = 1 ∧ (s.xs x0).testBit 0 = true)) ∧
    (get_flag (bsl s x0 x1) F_ZERO = true ↔
      (((if s.xs x1 < 32 then s.xs x0 <<< s.xs x1 else 0) |||
        (get_flag s F_CARRY).toNat) % M32 = 0)) ∧
    (get_flag (bsl s x0 x1) F_NEGATIVE = true ↔
      ((((if s.xs x1 < 32 then s.xs x0 <<< s.xs x1 else 0) |||
        (get_flag s F_CARRY).toNat) % M32).testBit 31 = true)) ∧
    (get_flag (bsl s x0 x1) F_PARITY = true ↔
      ((((if s.xs x1 < 32 then s.xs x0 <<< s.xs x1 else 0) |||
        (get_flag s F_CARRY).toNat) % M32).testBit 0 = true)) ∧
    (get_flag (bsr s x0 x1) F_ZERO = true ↔
      (((if s.xs x1 < 32 then s.xs x0 >>> s.xs x1 else 0) |||
        (get_flag s F_CARRY).toNat) % M32 = 0)) ∧
    (get_flag (bsr s x0 x1) F_NEGATIVE = true ↔
      ((((if s.xs x1 < 32 then s.xs x0 >>> s.xs x1 else 0) |||
        (get_flag s F_CARRY).toNat) % M32).testBit 31 = true)) ∧
    (get_flag (bsr s x0 x1) F_PARITY = true ↔
      ((((if s.xs x1 < 32 then s.xs x0 >>> s.xs x1 else 0) |||
        (get_flag s F_CARRY).toNat) % M32).testBit 0 = true)) := by
  have hc : (get_flag s F_CARRY).toNat % M32 = (get_flag s F_CARRY).toNat :=
    Nat.mod_eq_of_lt (by cases get_flag s F_CARRY <;> norm_num [M32])
  refine ⟨?_, ?_, ?_, ?_, ?_, ?_, ?_, ?_, ?_, ?_⟩
  · intro h
    have hn : ¬(s.xs x1 < 32) := Nat.not_lt.mpr h
    simp [bsl, hn, hc]
  · intro h
    simp [bsl, h]
  all_goals
  · by_cases h1 : s.xs x1 = 1 <;>
      simp [bsl, bsr, h1, F_ZERO, F_CARRY, F_NEGATIVE, F_PARITY, get_flag_testBit,
        testBit_set_flag, testBit_clearFlagsMask, and_msb_ne, and_b32_ne, and_one_ne,
        mod_testBit31, mod_M32_mod_two, testBit_toNat_ne_zero, toNat_mod_two_eq_one,
        shiftRight_one_mod_two,
        show (59392 : Nat).testBit 11 = true from by decide,
        show (59392 : Nat).testBit 13 = true from by decide,
        show (59392 : Nat).testBit 14 = true from by decide,
        show (59392 : Nat).testBit 15 = true from by decide]

/-- Witness for claim C5 at the state `cex3` (`xs[0] = 5`, `xs[1] = 0`):
the shift amount 0 is below 32 and the computed register value is 5. -/
theorem c5_shift_saturation_carry_witness :
    cex3.xs 1 < 32 ∧ (bsl cex3 0 1).xs 0 = 5 := by
  refine ⟨by decide, ?_⟩
  have h := (c5_shift_saturation_carry cex3 0 1).2.1 (by decide)
  simpa using h

theorem masked_shift28 (x : Nat) (h : x < M32) :
    (x &&& 4026531840) >>> 28 = x >>> 28 := by
  apply Nat.eq_of_testBit_eq
  intro i
  simp only [Nat.testBit_shiftRight, Nat.testBit_and]
  rcases Nat.lt_or_ge i 4 with h4 | h4
  · have ht : (4026531840 : Nat).testBit (28 + i) = true := by
      interval_cases i <;> decide
    simp [ht]
  · have hx : x.testBit (28 + i) = false :=
      Nat.testBit_lt_two_pow (Nat.lt_of_lt_of_le (by rw [M32_eq] at h; exact h)
        (Nat.pow_le_pow_right (by norm_num) (by omega)))
    simp [hx]

theorem masked_shift28_mod (x : Nat) :
    ((x % M32) &&& 4026531840) >>> 28 = (x % M32) >>> 28 :=
  masked_shift28 _ (Nat.mod_lt _ (by norm_num [M32]))

theorem and_mask28 (x : Nat) : x &&& 268435455 = x % 268435456 := by
  rw [show (268435455 : Nat) = 2 ^ 28 - 1 from by norm_num, Nat.and_pow_two_sub_one_eq_mod]

theorem ite_app {α : Type} {c : Prop} {h : Decidable c} (A B : Mo α) (st : Cpu) :
    (ite c A B) st = ite c (A st) (B st) := by
  split <;> rfl

/-- Claim C1, amended: with the M flag set the walk forms the 32-bit sum
`S = (E + (vaddr &&& 0xffff)) mod 2^32` first; the permission nibble is
the top four bits of `S` (not of `E`), the physical address is the low 28
bits of `S`, and the UsedFreePage / InvalidPermissions / success outcomes
are decided from that nibble exactly as the claim lists them. -/
theorem c1_mmu_walk_amended (s : Cpu) (vaddr perm : Nat)
    (hM : get_flag s F_MEMMAP_ENABLE = true) :
    check_memory vaddr perm s = mmuWalkAmended s vaddr perm := by
  have hb : (s.flags &&& 1 <<< F_MEMMAP_ENABLE != 0) = true := hM
  unfold check_memory mmuWalkAmended le32at readByteP
  simp [Bind.bind, Mo.bind, getCpu, addressRead, throwFault, Pure.pure, Mo.pure, hb,
    ite_app, masked_shift28_mod, and_mask28]

/-- Witness for claim C1's amended theorem at the repository's
`cpu_memmap` test state. -/
theorem c1_mmu_walk_amended_witness :
    get_flag wmmu F_MEMMAP_ENABLE = true ∧
    check_memory 188 WRITE wmmu = mmuWalkAmended wmmu 188 WRITE :=
  ⟨by decide, c1_mmu_walk_amended wmmu 188 WRITE (by decide)⟩

/-- Counterexample for claim C1 as stated: at the state `cex1` (second
level entry E = 0x8FFFFFFF, page offset 1, requested permission EXEC) the
claim prescribes `InvalidPermissions(8, 1)` (permission nibble taken from
E), but the code takes the nibble from E + offset = 0x90000000 and
returns `Ok(0)`. -/
theorem c1_mmu_walk_counterexample :
    check_memory 1 1 cex1 = Res.ok 0 cex1 ∧
    mmuWalkClaimC1 cex1 1 1 = Res.fault (InvalidMemoryAccess.InvalidPermissions 8 1) cex1 ∧
    check_memory 1 1 cex1 ≠ mmuWalkClaimC1 cex1 1 1 := by
  have h1 : check_memory 1 1 cex1 = Res.ok 0 cex1 := by rfl
  have h2 : mmuWalkClaimC1 cex1 1 1 =
      Res.fault (InvalidMemoryAccess.InvalidPermissions 8 1) cex1 := by rfl
  refine ⟨h1, h2, ?_⟩
  rw [h1, h2]
  intro h
  exact Res.noConfusion h

theorem keeps_bind {α β : Type} {m : Mo α} {f : α → Mo β}
    (hm : Keeps m) (hf : ∀ a, Keeps (f a)) : Keeps (m >>= f) := by
  intro s
  have hg := hm s
  show (Mo.bind m f s).cpu = s
  unfold Mo.bind
  cases hms : m s with
  | ok a s' =>
    rw [hms] at hg
    exact (hf a s').trans hg
  | fault e s' =>
    rw [hms] at hg
    exact hg
  | panic s' =>
    rw [hms] at hg
    exact hg

theorem keeps_getCpu : Keeps getCpu := fun _ => rfl

theorem keeps_addressRead (a : Nat) : Keeps (addressRead a) := fun _ => rfl

theorem keeps_throwFault {α : Type} (e : InvalidMemoryAccess) :
    Keeps (throwFault e : Mo α) := fun _ => rfl

theorem keeps_pure {α : Type} (a : α) : Keeps (Mo.pure a) := fun _ => rfl

theorem keeps_check_memory (a p : Nat) : Keeps (check_memory a p) := by
  unfold check_memory
  refine keeps_bind keeps_getCpu fun s => ?_
  split
  · refine keeps_bind (keeps_addressRead _) fun b0 => ?_
    refine keeps_bind (keeps_addressRead _) fun b1 => ?_
    refine keeps_bind (keeps_addressRead _) fun b2 => ?_
    refine keeps_bind (keeps_addressRead _) fun b3 => ?_
    dsimp only []
    split
    · exact keeps_throwFault _
    · refine keeps_bind (keeps_addressRead _) fun c0 => ?_
      refine keeps_bind (keeps_addressRead _) fun c1 => ?_
      refine keeps_bind (keeps_addressRead _) fun c2 => ?_
      refine keeps_bind (keeps_addressRead _) fun c3 => ?_
      dsimp only []
      split
      · exact keeps_throwFault _
      · split
        · exact keeps_throwFault _
        · exact keeps_pure _
  · exact keeps_pure _

/-- Claim C9: with the M flag set, address translation leaves every
register, the flags word, the memmap register (and even the memory)
unchanged, whether it returns an address or a fault. -/
theorem c9_translation_frame (s : Cpu) (addr perm : Nat)
    (hM : get_flag s F_MEMMAP_ENABLE = true) :
    (check_memory addr perm s).cpu.xs = s.xs ∧
    (check_memory addr perm s).cpu.fs = s.fs ∧
    (check_memory addr perm s).cpu.flags = s.flags ∧
    (check_memory addr perm s).cpu.memmap = s.memmap ∧
    (check_memory addr perm s).cpu.mem = s.mem := by
  rw [keeps_check_memory addr perm s]
  exact ⟨rfl, rfl, rfl, rfl, rfl⟩

/-- Witness for claim C9 at the repository's `cpu_memmap` test state. -/
theorem c9_translation_frame_witness :
    get_flag wmmu F_MEMMAP_ENABLE = true ∧
    (check_memory 188 WRITE wmmu).cpu.xs = wmmu.xs :=
  ⟨by decide, (c9_translation_frame wmmu 188 WRITE (by decide)).1⟩

/-- Counterexample for claim C4 as stated: on the state `cex4`
(instruction stream `83 01`, i.e. IDIV x0, x1, with `xs[1] = 0`), `step`
does not return a divide-by-zero fault to its caller; the Rust code
panics (models as the panic outcome, which is neither `Ok` nor a fault). -/
theorem c4_div_by_zero_counterexample :
    Res.isPanic (step fops0 cex4) = true ∧ Res.isOk (step fops0 cex4) = false := by
  constructor <;> rfl

/-- Claim C4, amended: a zero divisor makes IDIV/IMOD hit Rust's division
panic (the interpreter crashes; no fault value is produced), while a
nonzero divisor yields the unsigned quotient/remainder with Z, N, P
updated from the result. -/
theorem c4_div_mod_amended (s : Cpu) (x0 x1 : Fin 16) :
    (s.xs x1 = 0 → idiv x0 x1 s = Res.panic s ∧ imod x0 x1 s = Res.panic s) ∧
    (s.xs x1 ≠ 0 →
      ((idiv x0 x1 s).isOk = true ∧
        (idiv x0 x1 s).cpu.xs x0 = s.xs x0 / s.xs x1 ∧
        (get_flag (idiv x0 x1 s).cpu F_ZERO = true ↔ s.xs x0 / s.xs x1 = 0) ∧
        (get_flag (idiv x0 x1 s).cpu F_NEGATIVE = true ↔
          (s.xs x0 / s.xs x1).testBit 31 = true) ∧
        (get_flag (idiv x0 x1 s).cpu F_PARITY = true ↔
          (s.xs x0 / s.xs x1).testBit 0 = true)) ∧
      ((imod x0 x1 s).isOk = true ∧
        (imod x0 x1 s).cpu.xs x0 = s.xs x0 % s.xs x1 ∧
        (get_flag (imod x0 x1 s).cpu F_ZERO = true ↔ s.xs x0 % s.xs x1 = 0) ∧
        (get_flag (imod x0 x1 s).cpu F_NEGATIVE = true ↔
          (s.xs x0 % s.xs x1).testBit 31 = true) ∧
        (get_flag (imod x0 x1 s).cpu F_PARITY = true ↔
          (s.xs x0 % s.xs x1).testBit 0 = true))) := by
  constructor
  · intro h
    constructor <;> simp [idiv, imod, h]
  · intro h
    have hb : (s.xs x1 == 0) = false := by simp [h]
    constructor <;>
      refine ⟨by simp [idiv, imod, hb, Res.isOk], by simp [idiv, imod, hb, Res.cpu], ?_, ?_, ?_⟩ <;>
      · simp only [idiv, imod, hb, Bool.false_eq_true, if_false, Res.cpu,
          update_flags_int, F_ZERO, F_NEGATIVE, F_PARITY,
          get_flag_testBit, testBit_set_flag, and_msb_ne, and_one_ne]
        simp [testBit_clearFlagsMask,
          show (51200 : Nat).testBit 11 = true from by decide,
          show (51200 : Nat).testBit 14 = true from by decide,
          show (51200 : Nat).testBit 15 = true from by decide]

/-- Witness for claim C4's amended theorem: dividing 29 by 4 yields 7 with
remainder 1, and a zero divisor panics. -/
theorem c4_div_mod_amended_witness :
    (cex3.xs 1 = 0 ∧ idiv 0 1 cex3 = Res.panic cex3) ∧
    (wdiv.xs 1 ≠ 0 ∧ (idiv 0 1 wdiv).cpu.xs 0 = 7 ∧ (imod 0 1 wdiv).cpu.xs 0 = 1) := by
  refine ⟨⟨by decide, ((c4_div_mod_amended cex3 0 1).1 (by decide)).1⟩, by decide, ?_, ?_⟩
  · have h := (((c4_div_mod_amended wdiv 0 1).2 (by decide)).1).2.1
    simpa using h
  · have h := (((c4_div_mod_amended wdiv 0 1).2 (by decide)).2).2.1
    simpa using h

/-- Counterexample for claim C7 as stated: in user ring (R = 1), running
the set-M opcode 0x03 does not return a privilege fault to the caller —
the source hits `todo!` and panics. -/
theorem c7_ring_counterexample :
    Res.isPanic (step fops0 cex7) = true ∧ Res.isOk (step fops0 cex7) = false := by
  constructor <;> rfl

/-- Claim C7, amended: with R = 1 any write of M or of R panics (the
`todo!` branch — the interpreter crashes rather than returning a fault);
with R = 0 the writes succeed and change exactly the targeted flag bit. -/
theorem c7_ring_guard_amended (s : Cpu) (v : Bool) (hf : s.flags < M32) :
    (get_flag s F_USER_RING = true →
      set_user_ring v s = Res.panic s ∧ set_memmap_enable v s = Res.panic s) ∧
    (get_flag s F_USER_RING = false →
      (set_user_ring v s).isOk = true ∧
      (set_memmap_enable v s).isOk = true ∧
      get_flag (set_user_ring v s).cpu F_USER_RING = v ∧
      get_flag (set_memmap_enable v s).cpu F_MEMMAP_ENABLE = v ∧
      (∀ k, k ≠ F_USER_RING →
        (set_user_ring v s).cpu.flags.testBit k = s.flags.testBit k) ∧
      (∀ k, k ≠ F_MEMMAP_ENABLE →
        (set_memmap_enable v s).cpu.flags.testBit k = s.flags.testBit k) ∧
      (set_user_ring v s).cpu.xs = s.xs ∧
      (set_user_ring v s).cpu.fs = s.fs ∧
      (set_user_ring v s).cpu.memmap = s.memmap ∧
      (set_user_ring v s).cpu.mem = s.mem ∧
      (set_memmap_enable v s).cpu.xs = s.xs ∧
      (set_memmap_enable v s).cpu.fs = s.fs ∧
      (set_memmap_enable v s).cpu.memmap = s.memmap ∧
      (set_memmap_enable v s).cpu.mem = s.mem) := by
  constructor
  · intro h
    constructor <;> simp [set_user_ring, set_memmap_enable, h]
  · intro h
    have hk32 : ∀ k, 32 ≤ k → s.flags.testBit k = false := fun k hk =>
      Nat.testBit_lt_two_pow (Nat.lt_of_lt_of_le (by rw [M32_eq] at hf; exact hf)
        (Nat.pow_le_pow_right (by norm_num) hk))
    have h18 : s.flags.testBit 18 = false := by
      have := get_flag_testBit s F_USER_RING
      rw [h] at this
      exact this.symm
    refine ⟨by simp [set_user_ring, h, Res.isOk], by simp [set_memmap_enable, h, Res.isOk],
      ?_, ?_, ?_, ?_,
      by simp [set_user_ring, h, Res.cpu], by simp [set_user_ring, h, Res.cpu],
      by simp [set_user_ring, h, Res.cpu], by simp [set_user_ring, h, Res.cpu],
      by simp [set_memmap_enable, h, Res.cpu], by simp [set_memmap_enable, h, Res.cpu],
      by simp [set_memmap_enable, h, Res.cpu], by simp [set_memmap_enable, h, Res.cpu]⟩
    · simp [set_user_ring, h, h18, Res.cpu, get_flag_testBit, testBit_set_flag,
        testBit_clearFlagsMask, F_USER_RING,
        show (262144 : Nat).testBit 18 = true from by decide]
    · simp [set_memmap_enable, h, h18, Res.cpu, get_flag_testBit, testBit_set_flag,
        testBit_clearFlagsMask, F_MEMMAP_ENABLE,
        show (524288 : Nat).testBit 19 = true from by decide]
    · intro k hk
      have hk' : k ≠ 18 := hk
      rcases Nat.lt_or_ge k 32 with hlt | hge
      · simp [set_user_ring, h, h18, Res.cpu, get_flag_testBit, testBit_set_flag,
          testBit_clearFlagsMask, F_USER_RING, hlt, hk', Ne.symm hk',
          testBit_two_pow_ne 262144 18 k (by norm_num) (fun hh => hk' hh.symm)]
      · simp [set_user_ring, h, h18, Res.cpu, get_flag_testBit, testBit_set_flag,
          testBit_clearFlagsMask, F_USER_RING, Nat.not_lt.mpr hge, hk', hk32 k hge]
    · intro k hk
      have hk' : k ≠ 19 := hk
      rcases Nat.lt_or_ge k 32 with hlt | hge
      · simp [set_memmap_enable, h, h18, Res.cpu, get_flag_testBit, testBit_set_flag,
          testBit_clearFlagsMask, F_MEMMAP_ENABLE, hlt, hk', Ne.symm hk',
          testBit_two_pow_ne 524288 19 k (by norm_num) (fun hh => hk' hh.symm)]
      · simp [set_memmap_enable, h, h18, Res.cpu, get_flag_testBit, testBit_set_flag,
          testBit_clearFlagsMask, F_MEMMAP_ENABLE, Nat.not_lt.mpr hge, hk', hk32 k hge]

/-- Witness for claim C7's amended theorem: from user ring (state `cex7`)
the set-R write panics; from system ring (state `cpu0`) the set-M write
succeeds and sets the M flag. -/
theorem c7_ring_guard_amended_witness :
    (get_flag cex7 F_USER_RING = true ∧ set_user_ring true cex7 = Res.panic cex7) ∧
    (get_flag cpu0 F_USER_RING = false ∧
      get_flag (set_memmap_enable true cpu0).cpu F_MEMMAP_ENABLE = true) := by
  refine ⟨⟨by decide, ?_⟩, ⟨by decide, ?_⟩⟩
  · exact ((c7_ring_guard_amended cex7 true (by decide)).1 (by decide)).1
  · exact (((c7_ring_guard_amended cpu0 true (by decide)).2 (by decide)).2).2.2.1

/-- Claim C8: IMUL writes the wrap-around product `(a * b) mod 2^32` to the
destination for every operand pair (including overflowing ones) and
updates Z, N, P from that 32-bit result. -/
theorem c8_imul_wraps (s : Cpu) (x0 x1 : Fin 16) :
    (imul s x0 x1).xs x0 = (s.xs x0 * s.xs x1) % M32 ∧
    (get_flag (imul s x0 x1) F_ZERO = true ↔ (s.xs x0 * s.xs x1) % M32 = 0) ∧
    (get_flag (imul s x0 x1) F_NEGATIVE = true ↔
      ((s.xs x0 * s.xs x1) % M32).testBit 31 = true) ∧
    (get_flag (imul s x0 x1) F_PARITY = true ↔
      ((s.xs x0 * s.xs x1) % M32).testBit 0 = true) := by
  refine ⟨by simp [imul, update_flags_int], ?_, ?_, ?_⟩ <;>
  · simp only [imul, update_flags_int, F_ZERO, F_NEGATIVE, F_PARITY,
      get_flag_testBit, testBit_set_flag, and_msb_ne, and_one_ne]
    simp [testBit_clearFlagsMask,
      show (51200 : Nat).testBit 11 = true from by decide,
      show (51200 : Nat).testBit 14 = true from by decide,
      show (51200 : Nat).testBit 15 = true from by decide]

end Cpuwu

namespace Cpuwu

theorem tb2047 (i : Nat) : (2047 : Nat).testBit i = decide (i < 11) := by
  rw [show (2047 : Nat) = 2 ^ 11 - 1 from by norm_num, Nat.testBit_two_pow_sub_one]

theorem and2047_or_shift (x : Nat) (b : Bool) (k : Nat) (hk : 11 ≤ k) :
    (x ||| b.toNat <<< k) &&& 2047 = x &&& 2047 := by
  apply Nat.eq_of_testBit_eq
  intro i
  simp only [Nat.testBit_and, Nat.testBit_or, testBit_bool_shift, tb2047]
  rcases Nat.lt_or_ge i 11 with h | h
  · have : ¬(i = k) := by omega
    simp [this, h]
  · simp [Nat.not_lt.mpr h]

theorem and2047_and_mask (x m : Nat) (hm : m &&& 2047 = 2047) :
    (x &&& m) &&& 2047 = x &&& 2047 := by
  rw [Nat.and_assoc, hm]

theorem flags_set_flag (s : Cpu) (f : Nat) (v : Bool) (hf : 11 ≤ f) :
    (set_flag s f v).flags &&& 2047 = s.flags &&& 2047 :=
  and2047_or_shift _ _ _ hf

theorem flags_clearFlagsMask (s : Cpu) (m : Nat)
    (hm : (4294967295 ^^^ m) &&& 2047 = 2047) :
    (clearFlagsMask s m).flags &&& 2047 = s.flags &&& 2047 :=
  and2047_and_mask _ _ hm

theorem flags_set_carry (s : Cpu) (v : Bool) :
    (set_carry s v).flags &&& 2047 = s.flags &&& 2047 := by
  unfold set_carry
  rw [flags_set_flag _ _ _ (by decide),
    flags_clearFlagsMask _ _ (by decide)]

theorem flags_update_flags_int (s : Cpu) (x : Nat) :
    (update_flags_int s x).flags &&& 2047 = s.flags &&& 2047 := by
  unfold update_flags_int
  rw [flags_set_flag _ _ _ (by decide),
    flags_set_flag _ _ _ (by decide),
    flags_set_flag _ _ _ (by decide),
    flags_clearFlagsMask _ _ (by decide)]

theorem flags_update_flags_float (s : Cpu) (x : Nat) :
    (update_flags_float s x).flags &&& 2047 = s.flags &&& 2047 := by
  unfold update_flags_float
  rw [flags_set_flag _ _ _ (by decide),
    flags_set_flag _ _ _ (by decide),
    flags_set_flag _ _ _ (by decide),
    flags_set_flag _ _ _ (by decide),
    flags_clearFlagsMask _ _ (by decide)]

theorem flags_iadd (s : Cpu) (x0 x1 : Fin 16) :
    (iadd s x0 x1).flags &&& 2047 = s.flags &&& 2047 := by
  unfold iadd
  show (set_flag _ _ _).flags &&& 2047 = _
  rw [flags_set_flag _ _ _ (by decide),
    flags_set_flag _ _ _ (by decide),
    flags_set_flag _ _ _ (by decide),
    flags_set_flag _ _ _ (by decide),
    flags_set_flag _ _ _ (by decide),
    flags_clearFlagsMask _ _
      (by decide)]

theorem flags_isub (s : Cpu) (x0 x1 : Fin 16) :
    (isub s x0 x1).flags &&& 2047 = s.flags &&& 2047 := by
  unfold isub
  show (iadd _ _ _).flags &&& 2047 = _
  rw [flags_iadd]

theorem flags_imul (s : Cpu) (x0 x1 : Fin 16) :
    (imul s x0 x1).flags &&& 2047 = s.flags &&& 2047 := by
  unfold imul
  rw [flags_update_flags_int]

theorem flags_bsl (s : Cpu) (x0 x1 : Fin 16) :
    (bsl s x0 x1).flags &&& 2047 = s.flags &&& 2047 := by
  unfold bsl
  show (set_flag _ _ _).flags &&& 2047 = _
  rw [flags_set_flag _ _ _ (by decide)]
  split
  · rw [flags_set_flag _ _ _ (by decide),
      flags_set_flag _ _ _ (by decide),
      flags_set_flag _ _ _ (by decide),
      flags_clearFlagsMask _ _ (by decide)]
  · rw [flags_set_flag _ _ _ (by decide),
      flags_set_flag _ _ _ (by decide),
      flags_clearFlagsMask _ _ (by decide)]

theorem flags_bsr (s : Cpu) (x0 x1 : Fin 16) :
    (bsr s x0 x1).flags &&& 2047 = s.flags &&& 2047 := by
  unfold bsr
  show (set_flag _ _ _).flags &&& 2047 = _
  rw [flags_set_flag _ _ _ (by decide)]
  split
  · rw [flags_set_flag _ _ _ (by decide),
      flags_set_flag _ _ _ (by decide),
      flags_set_flag _ _ _ (by decide),
      flags_clearFlagsMask _ _ (by decide)]
  · rw [flags_set_flag _ _ _ (by decide),
      flags_set_flag _ _ _ (by decide),
      flags_clearFlagsMask _ _ (by decide)]

end Cpuwu

namespace Cpuwu

theorem presim_of_keeps {α : Type} {m : Mo α} (h : Keeps m) : PresIM m := fun s => by
  rw [h s]

theorem presim_bind {α β : Type} {m : Mo α} {f : α → Mo β}
    (hm : PresIM m) (hf : ∀ a, PresIM (f a)) : PresIM (m >>= f) := by
  intro s
  have hg := hm s
  show ((Mo.bind m f) s).cpu.flags &&& 2047 = s.flags &&& 2047
  unfold Mo.bind
  cases hms : m s with
  | ok a s' =>
    rw [hms] at hg
    exact (hf a s').trans hg
  | fault e s' =>
    rw [hms] at hg
    exact hg
  | panic s' =>
    rw [hms] at hg
    exact hg

theorem presim_pure {α : Type} (a : α) : PresIM (Mo.pure a) := fun _ => rfl

theorem presim_getCpu : PresIM getCpu := fun _ => rfl

theorem presim_throwFault {α : Type} (e : InvalidMemoryAccess) :
    PresIM (throwFault e : Mo α) := fun _ => rfl

theorem presim_panicMo {α : Type} : PresIM (panicMo : Mo α) := fun _ => rfl

theorem presim_modifyCpu (f : Cpu → Cpu)
    (hf : ∀ s, (f s).flags &&& 2047 = s.flags &&& 2047) : PresIM (modifyCpu f) :=
  fun s => hf s

theorem presim_addressRead (a : Nat) : PresIM (addressRead a) :=
  presim_of_keeps (keeps_addressRead a)

theorem presim_addressWrite (a d : Nat) : PresIM (addressWrite a d) := by
  intro s
  show ((addressWrite a d) s).cpu.flags &&& 2047 = _
  unfold addressWrite
  split <;> rfl

theorem presim_check_memory (a p : Nat) : PresIM (check_memory a p) :=
  presim_of_keeps (keeps_check_memory a p)

theorem presim_exec : PresIM exec := by
  unfold exec
  refine presim_bind presim_getCpu fun s => ?_
  refine presim_bind (presim_check_memory _ _) fun a => ?_
  refine presim_bind (presim_addressRead _) fun b => ?_
  refine presim_bind (presim_modifyCpu _ (fun s' => rfl)) fun _ => ?_
  exact presim_pure _

theorem presim_readMem (a : Nat) : PresIM (readMem a) := by
  unfold readMem
  exact presim_bind (presim_check_memory _ _) fun x => presim_addressRead _

theorem presim_writeMem (a d : Nat) : PresIM (writeMem a d) := by
  unfold writeMem
  exact presim_bind (presim_check_memory _ _) fun x => presim_addressWrite _ _

theorem presim_fetch32 : PresIM fetch32 := by
  unfold fetch32
  refine presim_bind presim_exec fun a0 => ?_
  refine presim_bind presim_exec fun a1 => ?_
  refine presim_bind presim_exec fun a2 => ?_
  refine presim_bind presim_exec fun a3 => ?_
  exact presim_pure _

theorem presim_push (b : Nat) : PresIM (push b) := by
  unfold push
  refine presim_bind presim_getCpu fun s => ?_
  refine presim_bind (presim_writeMem _ _) fun _ => ?_
  exact presim_modifyCpu _ (fun s' => rfl)

theorem presim_call : PresIM call := by
  unfold call
  refine presim_bind presim_fetch32 fun addr => ?_
  refine presim_bind presim_getCpu fun s => ?_
  refine presim_bind (presim_push _) fun _ => ?_
  refine presim_bind (presim_push _) fun _ => ?_
  refine presim_bind (presim_push _) fun _ => ?_
  refine presim_bind (presim_push _) fun _ => ?_
  refine presim_bind presim_getCpu fun s2 => ?_
  refine presim_bind (presim_push _) fun _ => ?_
  refine presim_bind (presim_push _) fun _ => ?_
  refine presim_bind (presim_push _) fun _ => ?_
  refine presim_bind (presim_push _) fun _ => ?_
  refine presim_bind (presim_modifyCpu _ (fun s' => rfl)) fun _ => ?_
  exact presim_modifyCpu _ (fun s' => rfl)

theorem presim_incBase : PresIM incBase :=
  presim_modifyCpu _ (fun s' => rfl)

theorem presim_retStepPC : PresIM retStepPC := by
  unfold retStepPC
  refine presim_bind presim_incBase fun _ => ?_
  refine presim_bind (presim_modifyCpu _ (fun s' => rfl)) fun _ => ?_
  refine presim_bind presim_getCpu fun s => ?_
  refine presim_bind (presim_readMem _) fun b => ?_
  exact presim_modifyCpu _ (fun s' => rfl)

theorem presim_ret : PresIM ret := by
  unfold ret
  refine presim_bind (presim_modifyCpu _ (fun s' => rfl)) fun _ => ?_
  refine presim_bind presim_retStepPC fun _ => ?_
  refine presim_bind presim_retStepPC fun _ => ?_
  refine presim_bind presim_retStepPC fun _ => ?_
  refine presim_bind presim_retStepPC fun _ => ?_
  refine presim_bind presim_incBase fun _ => ?_
  refine presim_bind presim_getCpu fun s1 => ?_
  refine presim_bind (presim_readMem _) fun b1 => ?_
  refine presim_bind presim_incBase fun _ => ?_
  refine presim_bind presim_getCpu fun s2 => ?_
  refine presim_bind (presim_readMem _) fun b2 => ?_
  refine presim_bind presim_incBase fun _ => ?_
  refine presim_bind presim_getCpu fun s3 => ?_
  refine presim_bind (presim_readMem _) fun b3 => ?_
  refine presim_bind presim_incBase fun _ => ?_
  refine presim_bind presim_getCpu fun s4 => ?_
  refine presim_bind (presim_readMem _) fun b4 => ?_
  refine presim_bind (presim_modifyCpu _ (fun s' => rfl)) fun _ => ?_
  exact presim_modifyCpu _ (fun s' => rfl)

theorem presim_branch_true (f : Nat) : PresIM (branch_true f) := by
  unfold branch_true
  refine presim_bind presim_fetch32 fun addr => ?_
  refine presim_bind presim_getCpu fun s => ?_
  split
  · exact presim_modifyCpu _ (fun s' => rfl)
  · exact presim_pure _

theorem presim_branch_false (f : Nat) : PresIM (branch_false f) := by
  unfold branch_false
  refine presim_bind presim_fetch32 fun addr => ?_
  refine presim_bind presim_getCpu fun s => ?_
  split
  · exact presim_modifyCpu _ (fun s' => rfl)
  · exact presim_pure _

end Cpuwu

namespace Cpuwu

theorem presim_load_lit_int (x0 : Fin 16) : PresIM (load_lit_int x0) := by
  unfold load_lit_int
  exact presim_bind presim_fetch32 fun d =>
    presim_modifyCpu _ (fun s => flags_update_flags_int _ _)

theorem presim_load_lit_float (f0 : Fin 16) : PresIM (load_lit_float f0) := by
  unfold load_lit_float
  exact presim_bind presim_fetch32 fun d =>
    presim_modifyCpu _ (fun s => flags_update_flags_float _ _)

theorem presim_read32 (a : Nat) : PresIM (read32 a) := by
  unfold read32
  refine presim_bind (presim_readMem _) fun b0 => ?_
  refine presim_bind (presim_readMem _) fun b1 => ?_
  refine presim_bind (presim_readMem _) fun b2 => ?_
  refine presim_bind (presim_readMem _) fun b3 => ?_
  exact presim_pure _

theorem presim_load_int (x0 : Fin 16) : PresIM (load_int x0) := by
  unfold load_int
  exact presim_bind presim_fetch32 fun addr =>
    presim_bind (presim_read32 _) fun d =>
      presim_modifyCpu _ (fun s => flags_update_flags_int _ _)

theorem presim_load_float (f0 : Fin 16) : PresIM (load_float f0) := by
  unfold load_float
  exact presim_bind presim_fetch32 fun addr =>
    presim_bind (presim_read32 _) fun d =>
      presim_modifyCpu _ (fun s => flags_update_flags_float _ _)

theorem presim_load_indirect_int (x0 a : Fin 16) : PresIM (load_indirect_int x0 a) := by
  unfold load_indirect_int
  exact presim_bind presim_getCpu fun s =>
    presim_bind (presim_read32 _) fun d =>
      presim_modifyCpu _ (fun s' => flags_update_flags_int _ _)

theorem presim_load_indirect_float (f0 a : Fin 16) : PresIM (load_indirect_float f0 a) := by
  unfold load_indirect_float
  exact presim_bind presim_getCpu fun s =>
    presim_bind (presim_read32 _) fun d =>
      presim_modifyCpu _ (fun s' => flags_update_flags_float _ _)

theorem presim_write32 (a v : Nat) : PresIM (write32 a v) := by
  unfold write32
  refine presim_bind (presim_writeMem _ _) fun _ => ?_
  refine presim_bind (presim_writeMem _ _) fun _ => ?_
  refine presim_bind (presim_writeMem _ _) fun _ => ?_
  exact presim_writeMem _ _

theorem presim_store_indirect_int (x0 a : Fin 16) : PresIM (store_indirect_int x0 a) := by
  unfold store_indirect_int
  exact presim_bind presim_getCpu fun s => presim_write32 _ _

theorem presim_store_indirect_short (x0 a : Fin 16) : PresIM (store_indirect_short x0 a) := by
  unfold store_indirect_short
  exact presim_bind presim_getCpu fun s =>
    presim_bind (presim_writeMem _ _) fun _ => presim_writeMem _ _

theorem presim_store_indirect_byte (x0 a : Fin 16) : PresIM (store_indirect_byte x0 a) := by
  unfold store_indirect_byte
  exact presim_bind presim_getCpu fun s => presim_writeMem _ _

theorem presim_store_indirect_float (f0 a : Fin 16) : PresIM (store_indirect_float f0 a) := by
  unfold store_indirect_float
  exact presim_bind presim_getCpu fun s => presim_write32 _ _

theorem presim_store_int (x0 : Fin 16) : PresIM (store_int x0) := by
  unfold store_int
  exact presim_bind presim_fetch32 fun addr =>
    presim_bind presim_getCpu fun s => presim_write32 _ _

theorem presim_store_short (x0 : Fin 16) : PresIM (store_short x0) := by
  unfold store_short
  exact presim_bind presim_fetch32 fun addr =>
    presim_bind presim_getCpu fun s =>
      presim_bind (presim_writeMem _ _) fun _ => presim_writeMem _ _

theorem presim_store_byte (x0 : Fin 16) : PresIM (store_byte x0) := by
  unfold store_byte
  exact presim_bind presim_fetch32 fun addr =>
    presim_bind presim_getCpu fun s => presim_writeMem _ _

theorem presim_store_float (f0 : Fin 16) : PresIM (store_float f0) := by
  unfold store_float
  exact presim_bind presim_fetch32 fun addr =>
    presim_bind presim_getCpu fun s => presim_write32 _ _

theorem presim_idiv (x0 x1 : Fin 16) : PresIM (idiv x0 x1) := by
  intro s
  unfold idiv
  split
  · rfl
  · show (update_flags_int _ _).flags &&& 2047 = _
    rw [flags_update_flags_int]

theorem presim_imod (x0 x1 : Fin 16) : PresIM (imod x0 x1) := by
  intro s
  unfold imod
  split
  · rfl
  · show (update_flags_int _ _).flags &&& 2047 = _
    rw [flags_update_flags_int]

theorem presim_set_user_ring (v : Bool) : PresIM (set_user_ring v) := by
  intro s
  unfold set_user_ring
  split
  · show (set_flag _ _ _).flags &&& 2047 = _
    rw [flags_set_flag _ _ _ (by decide), flags_clearFlagsMask _ _ (by decide)]
  · rfl

theorem presim_set_memmap_enable (v : Bool) : PresIM (set_memmap_enable v) := by
  intro s
  unfold set_memmap_enable
  split
  · show (set_flag _ _ _).flags &&& 2047 = _
    rw [flags_set_flag _ _ _ (by decide), flags_clearFlagsMask _ _ (by decide)]
  · rfl

end Cpuwu

namespace Cpuwu

theorem flags_andOp (s : Cpu) (x0 x1 : Fin 16) :
    (andOp s x0 x1).flags &&& 2047 = s.flags &&& 2047 := flags_update_flags_int _ _

theorem flags_orOp (s : Cpu) (x0 x1 : Fin 16) :
    (orOp s x0 x1).flags &&& 2047 = s.flags &&& 2047 := flags_update_flags_int _ _

theorem flags_xorOp (s : Cpu) (x0 x1 : Fin 16) :
    (xorOp s x0 x1).flags &&& 2047 = s.flags &&& 2047 := flags_update_flags_int _ _

theorem flags_move_int (s : Cpu) (x0 x1 : Fin 16) :
    (move_int s x0 x1).flags &&& 2047 = s.flags &&& 2047 := flags_update_flags_int _ _

theorem flags_move_float (s : Cpu) (x0 x1 : Fin 16) :
    (move_float s x0 x1).flags &&& 2047 = s.flags &&& 2047 := flags_update_flags_float _ _

theorem flags_fadd (fo : FloatOps) (s : Cpu) (f0 f1 : Fin 16) :
    (fadd fo s f0 f1).flags &&& 2047 = s.flags &&& 2047 := flags_update_flags_float _ _

theorem flags_fsub (fo : FloatOps) (s : Cpu) (f0 f1 : Fin 16) :
    (fsub fo s f0 f1).flags &&& 2047 = s.flags &&& 2047 := flags_update_flags_float _ _

theorem flags_fmul (fo : FloatOps) (s : Cpu) (f0 f1 : Fin 16) :
    (fmul fo s f0 f1).flags &&& 2047 = s.flags &&& 2047 := flags_update_flags_float _ _

theorem flags_fdiv (fo : FloatOps) (s : Cpu) (f0 f1 : Fin 16) :
    (fdiv fo s f0 f1).flags &&& 2047 = s.flags &&& 2047 := flags_update_flags_float _ _

theorem flags_move_int_float (fo : FloatOps) (s : Cpu) (x0 f1 : Fin 16) :
    (move_int_float fo s x0 f1).flags &&& 2047 = s.flags &&& 2047 :=
  flags_update_flags_int _ _

theorem flags_move_float_int (fo : FloatOps) (s : Cpu) (f0 x1 : Fin 16) :
    (move_float_int fo s f0 x1).flags &&& 2047 = s.flags &&& 2047 :=
  flags_update_flags_float _ _

theorem flags_transmute_int_float (s : Cpu) (x0 f1 : Fin 16) :
    (transmute_int_float s x0 f1).flags &&& 2047 = s.flags &&& 2047 :=
  flags_update_flags_int _ _

theorem flags_transmute_float_int (s : Cpu) (f0 x1 : Fin 16) :
    (transmute_float_int s f0 x1).flags &&& 2047 = s.flags &&& 2047 :=
  flags_update_flags_float _ _


theorem presim_ite {α : Type} {c : Prop} {h : Decidable c} {A B : Mo α}
    (hA : PresIM A) (hB : PresIM B) : PresIM (ite c A B) := by
  by_cases hc : c
  · simpa [hc] using hA
  · simpa [hc] using hB

theorem presim_decode00 (sub : Nat) : PresIM (decode00 sub) := by
  unfold decode00
  refine presim_ite (presim_modifyCpu _ (fun s => flags_set_carry s _)) ?_
  refine presim_ite (presim_modifyCpu _ (fun s => flags_set_carry s _)) ?_
  refine presim_ite (presim_set_memmap_enable _) ?_
  refine presim_ite (presim_set_memmap_enable _) ?_
  refine presim_ite (presim_set_user_ring _) ?_
  refine presim_ite (presim_call) ?_
  refine presim_ite (presim_ret) ?_
  refine presim_ite (presim_branch_true _) ?_
  refine presim_ite (presim_branch_true _) ?_
  refine presim_ite (presim_branch_true _) ?_
  refine presim_ite (presim_branch_true _) ?_
  refine presim_ite (presim_branch_true _) ?_
  refine presim_ite (presim_branch_true _) ?_
  refine presim_ite (presim_branch_true _) ?_
  refine presim_ite (presim_branch_true _) ?_
  refine presim_ite (presim_branch_false _) ?_
  refine presim_ite (presim_branch_false _) ?_
  refine presim_ite (presim_branch_false _) ?_
  refine presim_ite (presim_branch_false _) ?_
  refine presim_ite (presim_branch_false _) ?_
  refine presim_ite (presim_branch_false _) ?_
  refine presim_ite (presim_branch_false _) ?_
  refine presim_ite (presim_branch_false _) ?_
  exact presim_pure _

theorem presim_decode40 (op : Nat) : PresIM (decode40 op) := by
  unfold decode40
  refine presim_ite (presim_load_lit_int _) ?_
  refine presim_ite (presim_load_lit_float _) ?_
  refine presim_ite (presim_load_int _) ?_
  refine presim_ite (presim_load_float _) ?_
  exact presim_panicMo

theorem presim_decode80 (fo : FloatOps) (sub : Nat) (fst snd : Fin 16) : PresIM (decode80 fo sub fst snd) := by
  unfold decode80
  refine presim_ite (presim_modifyCpu _ (fun s => flags_iadd s _ _)) ?_
  refine presim_ite (presim_modifyCpu _ (fun s => flags_isub s _ _)) ?_
  refine presim_ite (presim_modifyCpu _ (fun s => flags_imul s _ _)) ?_
  refine presim_ite (presim_idiv _ _) ?_
  refine presim_ite (presim_imod _ _) ?_
  refine presim_ite (presim_modifyCpu _ (fun s => flags_fadd fo s _ _)) ?_
  refine presim_ite (presim_modifyCpu _ (fun s => flags_fsub fo s _ _)) ?_
  refine presim_ite (presim_modifyCpu _ (fun s => flags_fmul fo s _ _)) ?_
  refine presim_ite (presim_modifyCpu _ (fun s => flags_fdiv fo s _ _)) ?_
  refine presim_ite (presim_modifyCpu _ (fun s => flags_bsl s _ _)) ?_
  refine presim_ite (presim_modifyCpu _ (fun s => flags_bsr s _ _)) ?_
  refine presim_ite (presim_modifyCpu _ (fun s => flags_andOp s _ _)) ?_
  refine presim_ite (presim_modifyCpu _ (fun s => flags_orOp s _ _)) ?_
  refine presim_ite (presim_modifyCpu _ (fun s => flags_xorOp s _ _)) ?_
  refine presim_ite (presim_modifyCpu _ (fun s => flags_move_int s _ _)) ?_
  refine presim_ite (presim_modifyCpu _ (fun s => flags_move_float s _ _)) ?_
  refine presim_ite (presim_modifyCpu _ (fun s => flags_move_int_float fo s _ _)) ?_
  refine presim_ite (presim_modifyCpu _ (fun s => flags_move_float_int fo s _ _)) ?_
  refine presim_ite (presim_modifyCpu _ (fun s => flags_transmute_int_float s _ _)) ?_
  refine presim_ite (presim_modifyCpu _ (fun s => flags_transmute_float_int s _ _)) ?_
  refine presim_ite (presim_load_indirect_int _ _) ?_
  refine presim_ite (presim_load_indirect_float _ _) ?_
  refine presim_ite (presim_store_indirect_int _ _) ?_
  refine presim_ite (presim_store_indirect_short _ _) ?_
  refine presim_ite (presim_store_indirect_byte _ _) ?_
  refine presim_ite (presim_store_indirect_float _ _) ?_
  exact presim_pure _

theorem presim_decodeC0 (op : Nat) : PresIM (decodeC0 op) := by
  unfold decodeC0
  refine presim_ite (presim_store_int _) ?_
  refine presim_ite (presim_store_short _) ?_
  refine presim_ite (presim_store_byte _) ?_
  refine presim_ite (presim_store_float _) ?_
  exact presim_panicMo

theorem presim_decode (fo : FloatOps) (op : Nat) : PresIM (decode_instruction fo op) := by
  unfold decode_instruction
  refine presim_ite (presim_decode00 _) ?_
  refine presim_ite (presim_decode40 _) ?_
  refine presim_ite (presim_bind presim_exec fun d => presim_decode80 fo _ _ _) ?_
  refine presim_ite (presim_decodeC0 _) ?_
  exact presim_panicMo

theorem presim_step (fo : FloatOps) : PresIM (step fo) := by
  unfold step
  exact presim_bind presim_exec fun op => presim_decode fo op

end Cpuwu

namespace Cpuwu

/-- Claim C10: one full `step` — whatever instruction byte it fetches and
whether it ends in Ok, a fault, or a panic — preserves bits 0..10 of the
flags word (the interrupt mask and last-interrupt index), for every float
semantics, since every flag write targets bit 11 or higher. -/
theorem c10_step_preserves_low_flag_bits (fo : FloatOps) (s : Cpu) :
    (step fo s).cpu.flags &&& 2047 = s.flags &&& 2047 :=
  presim_step fo s

end Cpuwu

namespace Cpuwu

theorem bind_ok {α β : Type} {m : Mo α} {f : α → Mo β} {s s' : Cpu} {a : α}
    (h : m s = .ok a s') : (m >>= f) s = f a s' := by
  show Mo.bind m f s = _
  unfold Mo.bind
  rw [h]

theorem run_getCpu (s : Cpu) : getCpu s = .ok s s := rfl

theorem run_addressRead (a : Nat) (s : Cpu) :
    addressRead a s = .ok (readByteP s a) s := rfl

theorem run_check_memory_off (a p : Nat) (s : Cpu)
    (h : s.flags &&& (1 <<< F_MEMMAP_ENABLE) = 0) :
    check_memory a p s = .ok a s := by
  unfold check_memory
  rw [bind_ok (run_getCpu s)]
  rw [ite_app]
  rw [if_neg (by simp [h])]
  rfl

theorem run_exec_off (s : Cpu) (h : s.flags &&& (1 <<< F_MEMMAP_ENABLE) = 0) :
    exec s = .ok (readByteP s (s.xs R_PC))
      { s with xs := Function.update s.xs R_PC ((s.xs R_PC + 1) % M32) } := by
  unfold exec
  rw [bind_ok (run_getCpu s)]
  rw [bind_ok (run_check_memory_off _ _ _ h)]
  rw [bind_ok (run_addressRead _ _)]
  rfl

theorem run_writeMem_off (a d : Nat) (s : Cpu)
    (h : s.flags &&& (1 <<< F_MEMMAP_ENABLE) = 0) (ha : a < PMEM) :
    writeMem a d s = .ok () { s with mem := Function.update s.mem a (d % 256) } := by
  unfold writeMem
  rw [bind_ok (run_check_memory_off _ _ _ h)]
  unfold addressWrite
  rw [if_pos ha]

theorem run_readMem_off (a : Nat) (s : Cpu)
    (h : s.flags &&& (1 <<< F_MEMMAP_ENABLE) = 0) :
    readMem a s = .ok (readByteP s a) s := by
  unfold readMem
  rw [bind_ok (run_check_memory_off _ _ _ h)]
  rfl

theorem run_push (b : Nat) (s : Cpu)
    (h : s.flags &&& (1 <<< F_MEMMAP_ENABLE) = 0) (ha : s.xs R_SP < PMEM) :
    push b s = .ok () { s with
      mem := Function.update s.mem (s.xs R_SP) (b % 256),
      xs := Function.update s.xs R_SP ((s.xs R_SP + (M32 - 1)) % M32) } := by
  unfold push
  rw [bind_ok (run_getCpu s)]
  rw [bind_ok (run_writeMem_off _ _ _ h ha)]
  rfl

end Cpuwu

namespace Cpuwu

theorem upd_pc_sp (f : Fin 16 → Nat) (v : Nat) : (Function.update f R_PC v) R_SP = f R_SP :=
  Function.update_noteq (by decide) _ _

theorem upd_pc_base (f : Fin 16 → Nat) (v : Nat) : (Function.update f R_PC v) R_BASE = f R_BASE :=
  Function.update_noteq (by decide) _ _

theorem upd_sp_pc (f : Fin 16 → Nat) (v : Nat) : (Function.update f R_SP v) R_PC = f R_PC :=
  Function.update_noteq (by decide) _ _

theorem upd_sp_base (f : Fin 16 → Nat) (v : Nat) : (Function.update f R_SP v) R_BASE = f R_BASE :=
  Function.update_noteq (by decide) _ _

theorem upd_base_pc (f : Fin 16 → Nat) (v : Nat) : (Function.update f R_BASE v) R_PC = f R_PC :=
  Function.update_noteq (by decide) _ _

theorem upd_base_sp (f : Fin 16 → Nat) (v : Nat) : (Function.update f R_BASE v) R_SP = f R_SP :=
  Function.update_noteq (by decide) _ _

theorem run_exec_off_pc (s : Cpu) (k j : Nat) (h : s.flags &&& (1 <<< F_MEMMAP_ENABLE) = 0)
    (hj : k + 1 = j) :
    exec { s with xs := Function.update s.xs R_PC ((s.xs R_PC + k) % M32) } =
      .ok (readByteP s ((s.xs R_PC + k) % M32))
        { s with xs := Function.update s.xs R_PC ((s.xs R_PC + j) % M32) } := by
  rw [run_exec_off { s with xs := Function.update s.xs R_PC ((s.xs R_PC + k) % M32) } h]
  simp only [Function.update_same, Function.update_idem, Nat.mod_add_mod, readByteP]
  rw [Nat.add_assoc, hj]

theorem run_fetch32_off (s : Cpu) (h : s.flags &&& (1 <<< F_MEMMAP_ENABLE) = 0) :
    fetch32 s = .ok
      (readByteP s (s.xs R_PC) |||
        readByteP s ((s.xs R_PC + 1) % M32) <<< 8 |||
        readByteP s ((s.xs R_PC + 2) % M32) <<< 16 |||
        readByteP s ((s.xs R_PC + 3) % M32) <<< 24)
      { s with xs := Function.update s.xs R_PC ((s.xs R_PC + 4) % M32) } := by
  unfold fetch32
  rw [bind_ok (run_exec_off s h)]
  rw [bind_ok (run_exec_off_pc s 1 2 h (by norm_num))]
  rw [bind_ok (run_exec_off_pc s 2 3 h (by norm_num))]
  rw [bind_ok (run_exec_off_pc s 3 4 h (by norm_num))]
  rfl

end Cpuwu

namespace Cpuwu

theorem mod256_mod256 (x : Nat) : x % 256 % 256 = x % 256 :=
  Nat.mod_mod_of_dvd x dvd_rfl

theorem run_push2 (b : Nat) (t : Cpu)
    (h : t.flags &&& (1 <<< F_MEMMAP_ENABLE) = 0) (ha : t.xs R_SP < PMEM)
    (h1 : 1 ≤ t.xs R_SP) :
    push b t = .ok () { t with
      mem := Function.update t.mem (t.xs R_SP) (b % 256),
      xs := Function.update t.xs R_SP (t.xs R_SP - 1) } := by
  rw [run_push b t h ha]
  have hd : (t.xs R_SP + (M32 - 1)) % M32 = t.xs R_SP - 1 := by
    have hm : t.xs R_SP < M32 := by
      have : PMEM < M32 := by norm_num [PMEM, M32]
      omega
    simp only [M32] at hm ⊢
    omega
  rw [hd]

theorem run_call (s : Cpu)
    (h : s.flags &&& (1 <<< F_MEMMAP_ENABLE) = 0)
    (h8 : 8 ≤ s.xs R_SP) (hsp : s.xs R_SP < PMEM) :
    call s = .ok () { s with
      mem := Function.update (Function.update (Function.update (Function.update (Function.update (Function.update (Function.update (Function.update s.mem (s.xs R_SP) (s.xs R_BASE % 256)) (s.xs R_SP - 1) ((s.xs R_BASE >>> 8) % 256)) (s.xs R_SP - 2) ((s.xs R_BASE >>> 16) % 256)) (s.xs R_SP - 3) ((s.xs R_BASE >>> 24) % 256)) (s.xs R_SP - 4) (((s.xs R_PC + 4) % M32) % 256)) (s.xs R_SP - 5) ((((s.xs R_PC + 4) % M32) >>> 8) % 256)) (s.xs R_SP - 6) ((((s.xs R_PC + 4) % M32) >>> 16) % 256)) (s.xs R_SP - 7) ((((s.xs R_PC + 4) % M32) >>> 24) % 256),
      xs := Function.update (Function.update (Function.update (Function.update s.xs R_PC ((s.xs R_PC + 4) % M32)) R_SP (s.xs R_SP - 8)) R_BASE (s.xs R_SP - 8)) R_PC (fetched32 s) } := by
  unfold call
  rw [bind_ok (run_fetch32_off s h)]
  rw [bind_ok (run_getCpu { s with xs := Function.update s.xs R_PC ((s.xs R_PC + 4) % M32) })]
  simp only [upd_pc_base, upd_pc_sp, upd_sp_pc, upd_sp_base, Function.update_same,
    Function.update_idem, mod256_mod256, Nat.sub_sub]
  rw [bind_ok (run_push2 (s.xs R_BASE % 256) { s with xs := Function.update s.xs R_PC ((s.xs R_PC + 4) % M32) } h (by simp only [Function.update_same, upd_pc_sp]; omega) (by simp only [Function.update_same, upd_pc_sp]; omega))]
  simp only [upd_pc_base, upd_pc_sp, upd_sp_pc, upd_sp_base, Function.update_same,
    Function.update_idem, mod256_mod256, Nat.sub_sub]
  rw [bind_ok (run_push2 ((s.xs R_BASE >>> 8) % 256) { s with mem := Function.update s.mem (s.xs R_SP) (s.xs R_BASE % 256), xs := Function.update (Function.update s.xs R_PC ((s.xs R_PC + 4) % M32)) R_SP (s.xs R_SP - 1) } h (by simp only [Function.update_same, upd_pc_sp]; omega) (by simp only [Function.update_same, upd_pc_sp]; omega))]
  simp only [upd_pc_base, upd_pc_sp, upd_sp_pc, upd_sp_base, Function.update_same,
    Function.update_idem, mod256_mod256, Nat.sub_sub]
  norm_num
  rw [bind_ok (run_push2 ((s.xs R_BASE >>> 16) % 256) { s with mem := Function.update (Function.update s.mem (s.xs R_SP) (s.xs R_BASE % 256)) (s.xs R_SP - 1) ((s.xs R_BASE >>> 8) % 256), xs := Function.update (Function.update s.xs R_PC ((s.xs R_PC + 4) % M32)) R_SP (s.xs R_SP - 2) } h (by simp only [Function.update_same, upd_pc_sp]; omega) (by simp only [Function.update_same, upd_pc_sp]; omega))]
  simp only [upd_pc_base, upd_pc_sp, upd_sp_pc, upd_sp_base, Function.update_same,
    Function.update_idem, mod256_mod256, Nat.sub_sub]
  norm_num
  rw [bind_ok (run_push2 ((s.xs R_BASE >>> 24) % 256) { s with mem := Function.update (Function.update (Function.update s.mem (s.xs R_SP) (s.xs R_BASE % 256)) (s.xs R_SP - 1) ((s.xs R_BASE >>> 8) % 256)) (s.xs R_SP - 2) ((s.xs R_BASE >>> 16) % 256), xs := Function.update (Function.update s.xs R_PC ((s.xs R_PC + 4) % M32)) R_SP (s.xs R_SP - 3) } h (by simp only [Function.update_same, upd_pc_sp]; omega) (by simp only [Function.update_same, upd_pc_sp]; omega))]
  simp only [upd_pc_base, upd_pc_sp, upd_sp_pc, upd_sp_base, Function.update_same,
    Function.update_idem, mod256_mod256, Nat.sub_sub]
  norm_num
  rw [bind_ok (run_getCpu { s with mem := Function.update (Function.update (Function.update (Function.update s.mem (s.xs R_SP) (s.xs R_BASE % 256)) (s.xs R_SP - 1) ((s.xs R_BASE >>> 8) % 256)) (s.xs R_SP - 2) ((s.xs R_BASE >>> 16) % 256)) (s.xs R_SP - 3) ((s.xs R_BASE >>> 24) % 256), xs := Function.update (Function.update s.xs R_PC ((s.xs R_PC + 4) % M32)) R_SP (s.xs R_SP - 4) })]
  simp only [upd_pc_base, upd_pc_sp, upd_sp_pc, upd_sp_base, Function.update_same,
    Function.update_idem, mod256_mod256, Nat.sub_sub]
  rw [bind_ok (run_push2 (((s.xs R_PC + 4) % M32) % 256) { s with mem := Function.update (Function.update (Function.update (Function.update s.mem (s.xs R_SP) (s.xs R_BASE % 256)) (s.xs R_SP - 1) ((s.xs R_BASE >>> 8) % 256)) (s.xs R_SP - 2) ((s.xs R_BASE >>> 16) % 256)) (s.xs R_SP - 3) ((s.xs R_BASE >>> 24) % 256), xs := Function.update (Function.update s.xs R_PC ((s.xs R_PC + 4) % M32)) R_SP (s.xs R_SP - 4) } h (by simp only [Function.update_same, upd_pc_sp]; omega) (by simp only [Function.update_same, upd_pc_sp]; omega))]
  simp only [upd_pc_base, upd_pc_sp, upd_sp_pc, upd_sp_base, Function.update_same,
    Function.update_idem, mod256_mod256, Nat.sub_sub]
  norm_num
  rw [bind_ok (run_push2 ((((s.xs R_PC + 4) % M32) >>> 8) % 256) { s with mem := Function.update (Function.update (Function.update (Function.update (Function.update s.mem (s.xs R_SP) (s.xs R_BASE % 256)) (s.xs R_SP - 1) ((s.xs R_BASE >>> 8) % 256)) (s.xs R_SP - 2) ((s.xs R_BASE >>> 16) % 256)) (s.xs R_SP - 3) ((s.xs R_BASE >>> 24) % 256)) (s.xs R_SP - 4) (((s.xs R_PC + 4) % M32) % 256), xs := Function.update (Function.update s.xs R_PC ((s.xs R_PC + 4) % M32)) R_SP (s.xs R_SP - 5) } h (by simp only [Function.update_same, upd_pc_sp]; omega) (by simp only [Function.update_same, upd_pc_sp]; omega))]
  simp only [upd_pc_base, upd_pc_sp, upd_sp_pc, upd_sp_base, Function.update_same,
    Function.update_idem, mod256_mod256, Nat.sub_sub]
  norm_num
  rw [bind_ok (run_push2 ((((s.xs R_PC + 4) % M32) >>> 16) % 256) { s with mem := Function.update (Function.update (Function.update (Function.update (Function.update (Function.update s.mem (s.xs R_SP) (s.xs R_BASE % 256)) (s.xs R_SP - 1) ((s.xs R_BASE >>> 8) % 256)) (s.xs R_SP - 2) ((s.xs R_BASE >>> 16) % 256)) (s.xs R_SP - 3) ((s.xs R_BASE >>> 24) % 256)) (s.xs R_SP - 4) (((s.xs R_PC + 4) % M32) % 256)) (s.xs R_SP - 5) ((((s.xs R_PC + 4) % M32) >>> 8) % 256), xs := Function.update (Function.update s.xs R_PC ((s.xs R_PC + 4) % M32)) R_SP (s.xs R_SP - 6) } h (by simp only [Function.update_same, upd_pc_sp]; omega) (by simp only [Function.update_same, upd_pc_sp]; omega))]
  simp only [upd_pc_base, upd_pc_sp, upd_sp_pc, upd_sp_base, Function.update_same,
    Function.update_idem, mod256_mod256, Nat.sub_sub]
  norm_num
  rw [bind_ok (run_push2 ((((s.xs R_PC + 4) % M32) >>> 24) % 256) { s with mem := Function.update (Function.update (Function.update (Function.update (Function.update (Function.update (Function.update s.mem (s.xs R_SP) (s.xs R_BASE % 256)) (s.xs R_SP - 1) ((s.xs R_BASE >>> 8) % 256)) (s.xs R_SP - 2) ((s.xs R_BASE >>> 16) % 256)) (s.xs R_SP - 3) ((s.xs R_BASE >>> 24) % 256)) (s.xs R_SP - 4) (((s.xs R_PC + 4) % M32) % 256)) (s.xs R_SP - 5) ((((s.xs R_PC + 4) % M32) >>> 8) % 256)) (s.xs R_SP - 6) ((((s.xs R_PC + 4) % M32) >>> 16) % 256), xs := Function.update (Function.update s.xs R_PC ((s.xs R_PC + 4) % M32)) R_SP (s.xs R_SP - 7) } h (by simp only [Function.update_same, upd_pc_sp]; omega) (by simp only [Function.update_same, upd_pc_sp]; omega))]
  simp only [upd_pc_base, upd_pc_sp, upd_sp_pc, upd_sp_base, Function.update_same,
    Function.update_idem, mod256_mod256, Nat.sub_sub]
  norm_num
  rfl

end Cpuwu

namespace Cpuwu

theorem run_modifyCpu (f : Cpu → Cpu) (t : Cpu) : modifyCpu f t = .ok () (f t) := rfl

theorem run_retStepPC (t : Cpu) (h : t.flags &&& (1 <<< F_MEMMAP_ENABLE) = 0) :
    retStepPC t = .ok ()
      { t with xs := Function.update
                       (Function.update t.xs R_BASE ((t.xs R_BASE + 1) % M32)) R_PC
                       (((t.xs R_PC <<< 8) % M32) |||
                         readByteP t ((t.xs R_BASE + 1) % M32)) } := by
  unfold retStepPC incBase
  rw [bind_ok (run_modifyCpu _ t)]
  rw [bind_ok (run_modifyCpu _ _)]
  rw [bind_ok (run_getCpu _)]
  simp only [Function.update_same, Function.update_idem, upd_base_pc, upd_pc_base,
    upd_base_sp, upd_pc_sp]
  rw [bind_ok (run_readMem_off ((t.xs R_BASE + 1) % M32)
    { t with xs := Function.update
                     (Function.update t.xs R_BASE ((t.xs R_BASE + 1) % M32)) R_PC
                     ((t.xs R_PC <<< 8) % M32) } h)]
  rw [run_modifyCpu]
  simp only [Function.update_same, Function.update_idem, upd_base_pc, upd_pc_base,
    upd_base_sp, upd_pc_sp]
  rfl

theorem or_byte_step (a b : Nat) (ha : a < 16777216) (hb : b < 256) :
    ((a <<< 8) % M32 ||| b) = 256 * a + b := by
  have h1 : a <<< 8 = 2 ^ 8 * a := by
    rw [Nat.shiftLeft_eq]
    ring
  have h2 : (a <<< 8) % M32 = 2 ^ 8 * a := by
    rw [h1, Nat.mod_eq_of_lt]
    show 2 ^ 8 * a < M32
    norm_num [M32]
    omega
  rw [h2, ← Nat.mul_add_lt_is_or hb a]

theorem accum4 (x : Nat) (hx : x < M32) :
    (((((((0 <<< 8) % M32 ||| (x >>> 24) % 256) <<< 8) % M32 ||| (x >>> 16) % 256)
      <<< 8) % M32 ||| (x >>> 8) % 256) <<< 8) % M32 ||| x % 256 = x := by
  have e0 : ((0 : Nat) <<< 8) % M32 = 0 := by norm_num
  have hb1 : (x >>> 24) % 256 < 256 := Nat.mod_lt _ (by norm_num)
  have hb2 : (x >>> 16) % 256 < 256 := Nat.mod_lt _ (by norm_num)
  have hb3 : (x >>> 8) % 256 < 256 := Nat.mod_lt _ (by norm_num)
  have hb4 : x % 256 < 256 := Nat.mod_lt _ (by norm_num)
  rw [e0, Nat.zero_or]
  rw [or_byte_step _ _ (by omega) hb2]
  rw [or_byte_step _ _ (by omega) hb3]
  rw [or_byte_step _ _ (by omega) hb4]
  have d1 : x >>> 24 = x / 16777216 := by
    rw [Nat.shiftRight_eq_div_pow]
  have d2 : x >>> 16 = x / 65536 := by
    rw [Nat.shiftRight_eq_div_pow]
  have d3 : x >>> 8 = x / 256 := by
    rw [Nat.shiftRight_eq_div_pow]
  rw [d1, d2, d3]
  have hx' : x < 4294967296 := by
    simpa [M32] using hx
  omega

end Cpuwu

namespace Cpuwu

theorem readByteP_memByte (u : Cpu) (a : Nat) : readByteP u a = memByte u.mem a := rfl

theorem run_incBase (t : Cpu) :
    incBase t = .ok () { t with xs := Function.update t.xs R_BASE ((t.xs R_BASE + 1) % M32) } := rfl

theorem ret_projections (t : Cpu)
    (h : t.flags &&& (1 <<< F_MEMMAP_ENABLE) = 0)
    (hb8 : t.xs R_BASE + 8 < M32) :
    (ret t).isOk = true ∧
    (ret t).cpu.xs R_PC = ((((((memByte t.mem (t.xs R_BASE + 1)) <<< 8) % M32 ||| memByte t.mem (t.xs R_BASE + 2)) <<< 8) % M32 ||| memByte t.mem (t.xs R_BASE + 3)) <<< 8) % M32 ||| memByte t.mem (t.xs R_BASE + 4) ∧
    (ret t).cpu.xs R_BASE = ((((((memByte t.mem (t.xs R_BASE + 5)) <<< 8) % M32 ||| memByte t.mem (t.xs R_BASE + 6)) <<< 8) % M32 ||| memByte t.mem (t.xs R_BASE + 7)) <<< 8) % M32 ||| memByte t.mem (t.xs R_BASE + 8) ∧
    (ret t).cpu.xs R_SP = t.xs R_BASE + 8 := by
  have m1 : (t.xs R_BASE + 1) % M32 = t.xs R_BASE + 1 := Nat.mod_eq_of_lt (by simp only [M32] at hb8 ⊢; omega)
  have m2 : (t.xs R_BASE + 1 + 1) % M32 = t.xs R_BASE + 2 := by
    simp only [M32] at hb8 ⊢
    omega
  have m3 : (t.xs R_BASE + 2 + 1) % M32 = t.xs R_BASE + 3 := by
    simp only [M32] at hb8 ⊢
    omega
  have m4 : (t.xs R_BASE + 3 + 1) % M32 = t.xs R_BASE + 4 := by
    simp only [M32] at hb8 ⊢
    omega
  have m5 : (t.xs R_BASE + 4 + 1) % M32 = t.xs R_BASE + 5 := by
    simp only [M32] at hb8 ⊢
    omega
  have m6 : (t.xs R_BASE + 5 + 1) % M32 = t.xs R_BASE + 6 := by
    simp only [M32] at hb8 ⊢
    omega
  have m7 : (t.xs R_BASE + 6 + 1) % M32 = t.xs R_BASE + 7 := by
    simp only [M32] at hb8 ⊢
    omega
  have m8 : (t.xs R_BASE + 7 + 1) % M32 = t.xs R_BASE + 8 := by
    simp only [M32] at hb8 ⊢
    omega
  have hret : ret t = Res.ok () { t with xs := Function.update (Function.update (Function.update (Function.update (Function.update (Function.update (Function.update (Function.update (Function.update (Function.update (Function.update (Function.update t.xs R_PC (0)) R_BASE (t.xs R_BASE + 1)) R_PC (memByte t.mem (t.xs R_BASE + 1))) R_BASE (t.xs R_BASE + 2)) R_PC (((memByte t.mem (t.xs R_BASE + 1)) <<< 8) % M32 ||| memByte t.mem (t.xs R_BASE + 2))) R_BASE (t.xs R_BASE + 3)) R_PC (((((memByte t.mem (t.xs R_BASE + 1)) <<< 8) % M32 ||| memByte t.mem (t.xs R_BASE + 2)) <<< 8) % M32 ||| memByte t.mem (t.xs R_BASE + 3))) R_BASE (t.xs R_BASE + 4)) R_PC (((((((memByte t.mem (t.xs R_BASE + 1)) <<< 8) % M32 ||| memByte t.mem (t.xs R_BASE + 2)) <<< 8) % M32 ||| memByte t.mem (t.xs R_BASE + 3)) <<< 8) % M32 ||| memByte t.mem (t.xs R_BASE + 4))) R_BASE (t.xs R_BASE + 8)) R_SP (t.xs R_BASE + 8)) R_BASE (((((((memByte t.mem (t.xs R_BASE + 5)) <<< 8) % M32 ||| memByte t.mem (t.xs R_BASE + 6)) <<< 8) % M32 ||| memByte t.mem (t.xs R_BASE + 7)) <<< 8) % M32 ||| memByte t.mem (t.xs R_BASE + 8)) } := by
    unfold ret
    rw [bind_ok (run_modifyCpu _ t)]
    simp only [Function.update_same, Function.update_idem, upd_pc_base, upd_base_pc,
      upd_pc_sp, upd_sp_pc, upd_base_sp, upd_sp_base, readByteP_memByte,
      Nat.zero_shiftLeft, Nat.zero_mod, Nat.zero_or,
      m1, m2, m3, m4, m5, m6, m7, m8]
    rw [bind_ok (run_retStepPC { t with xs := Function.update t.xs R_PC (0) } h)]
    simp only [Function.update_same, Function.update_idem, upd_pc_base, upd_base_pc,
      upd_pc_sp, upd_sp_pc, upd_base_sp, upd_sp_base, readByteP_memByte,
      Nat.zero_shiftLeft, Nat.zero_mod, Nat.zero_or,
      m1, m2, m3, m4, m5, m6, m7, m8]
    rw [bind_ok (run_retStepPC { t with xs := Function.update (Function.update (Function.update t.xs R_PC (0)) R_BASE (t.xs R_BASE + 1)) R_PC (memByte t.mem (t.xs R_BASE + 1)) } h)]
    simp only [Function.update_same, Function.update_idem, upd_pc_base, upd_base_pc,
      upd_pc_sp, upd_sp_pc, upd_base_sp, upd_sp_base, readByteP_memByte,
      Nat.zero_shiftLeft, Nat.zero_mod, Nat.zero_or,
      m1, m2, m3, m4, m5, m6, m7, m8]
    rw [bind_ok (run_retStepPC { t with xs := Function.update (Function.update (Function.update (Function.update (Function.update t.xs R_PC (0)) R_BASE (t.xs R_BASE + 1)) R_PC (memByte t.mem (t.xs R_BASE + 1))) R_BASE (t.xs R_BASE + 2)) R_PC (((memByte t.mem (t.xs R_BASE + 1)) <<< 8) % M32 ||| memByte t.mem (t.xs R_BASE + 2)) } h)]
    simp only [Function.update_same, Function.update_idem, upd_pc_base, upd_base_pc,
      upd_pc_sp, upd_sp_pc, upd_base_sp, upd_sp_base, readByteP_memByte,
      Nat.zero_shiftLeft, Nat.zero_mod, Nat.zero_or,
      m1, m2, m3, m4, m5, m6, m7, m8]
    rw [bind_ok (run_retStepPC { t with xs := Function.update (Function.update (Function.update (Function.update (Function.update (Function.update (Function.update t.xs R_PC (0)) R_BASE (t.xs R_BASE + 1)) R_PC (memByte t.mem (t.xs R_BASE + 1))) R_BASE (t.xs R_BASE + 2)) R_PC (((memByte t.mem (t.xs R_BASE + 1)) <<< 8) % M32 ||| memByte t.mem (t.xs R_BASE + 2))) R_BASE (t.xs R_BASE + 3)) R_PC (((((memByte t.mem (t.xs R_BASE + 1)) <<< 8) % M32 ||| memByte t.mem (t.xs R_BASE + 2)) <<< 8) % M32 ||| memByte t.mem (t.xs R_BASE + 3)) } h)]
    simp only [Function.update_same, Function.update_idem, upd_pc_base, upd_base_pc,
      upd_pc_sp, upd_sp_pc, upd_base_sp, upd_sp_base, readByteP_memByte,
      Nat.zero_shiftLeft, Nat.zero_mod, Nat.zero_or,
      m1, m2, m3, m4, m5, m6, m7, m8]
    rw [bind_ok (run_incBase _)]
    simp only [Function.update_same, Function.update_idem, upd_pc_base, upd_base_pc,
      upd_pc_sp, upd_sp_pc, upd_base_sp, upd_sp_base, readByteP_memByte,
      Nat.zero_shiftLeft, Nat.zero_mod, Nat.zero_or,
      m1, m2, m3, m4, m5, m6, m7, m8]
    rw [bind_ok (run_getCpu _)]
    simp only [Function.update_same]
    rw [bind_ok (run_readMem_off (t.xs R_BASE + 5) { t with xs := Function.update (Function.update (Function.update (Function.update (Function.update (Function.update (Function.update (Function.update (Function.update (Function.update t.xs R_PC (0)) R_BASE (t.xs R_BASE + 1)) R_PC (memByte t.mem (t.xs R_BASE + 1))) R_BASE (t.xs R_BASE + 2)) R_PC (((memByte t.mem (t.xs R_BASE + 1)) <<< 8) % M32 ||| memByte t.mem (t.xs R_BASE + 2))) R_BASE (t.xs R_BASE + 3)) R_PC (((((memByte t.mem (t.xs R_BASE + 1)) <<< 8) % M32 ||| memByte t.mem (t.xs R_BASE + 2)) <<< 8) % M32 ||| memByte t.mem (t.xs R_BASE + 3))) R_BASE (t.xs R_BASE + 4)) R_PC (((((((memByte t.mem (t.xs R_BASE + 1)) <<< 8) % M32 ||| memByte t.mem (t.xs R_BASE + 2)) <<< 8) % M32 ||| memByte t.mem (t.xs R_BASE + 3)) <<< 8) % M32 ||| memByte t.mem (t.xs R_BASE + 4))) R_BASE (t.xs R_BASE + 5) } h)]
    simp only [Function.update_same, Function.update_idem, upd_pc_base, upd_base_pc,
      upd_pc_sp, upd_sp_pc, upd_base_sp, upd_sp_base, readByteP_memByte,
      Nat.zero_shiftLeft, Nat.zero_mod, Nat.zero_or,
      m1, m2, m3, m4, m5, m6, m7, m8]
    rw [bind_ok (run_incBase _)]
    simp only [Function.update_same, Function.update_idem, upd_pc_base, upd_base_pc,
      upd_pc_sp, upd_sp_pc, upd_base_sp, upd_sp_base, readByteP_memByte,
      Nat.zero_shiftLeft, Nat.zero_mod, Nat.zero_or,
      m1, m2, m3, m4, m5, m6, m7, m8]
    rw [bind_ok (run_getCpu _)]
    simp only [Function.update_same]
    rw [bind_ok (run_readMem_off (t.xs R_BASE + 6) { t with xs := Function.update (Function.update (Function.update (Function.update (Function.update (Function.update (Function.update (Function.update (Function.update (Function.update t.xs R_PC (0)) R_BASE (t.xs R_BASE + 1)) R_PC (memByte t.mem (t.xs R_BASE + 1))) R_BASE (t.xs R_BASE + 2)) R_PC (((memByte t.mem (t.xs R_BASE + 1)) <<< 8) % M32 ||| memByte t.mem (t.xs R_BASE + 2))) R_BASE (t.xs R_BASE + 3)) R_PC (((((memByte t.mem (t.xs R_BASE + 1)) <<< 8) % M32 ||| memByte t.mem (t.xs R_BASE + 2)) <<< 8) % M32 ||| memByte t.mem (t.xs R_BASE + 3))) R_BASE (t.xs R_BASE + 4)) R_PC (((((((memByte t.mem (t.xs R_BASE + 1)) <<< 8) % M32 ||| memByte t.mem (t.xs R_BASE + 2)) <<< 8) % M32 ||| memByte t.mem (t.xs R_BASE + 3)) <<< 8) % M32 ||| memByte t.mem (t.xs R_BASE + 4))) R_BASE (t.xs R_BASE + 6) } h)]
    simp only [Function.update_same, Function.update_idem, upd_pc_base, upd_base_pc,
      upd_pc_sp, upd_sp_pc, upd_base_sp, upd_sp_base, readByteP_memByte,
      Nat.zero_shiftLeft, Nat.zero_mod, Nat.zero_or,
      m1, m2, m3, m4, m5, m6, m7, m8]
    rw [bind_ok (run_incBase _)]
    simp only [Function.update_same, Function.update_idem, upd_pc_base, upd_base_pc,
      upd_pc_sp, upd_sp_pc, upd_base_sp, upd_sp_base, readByteP_memByte,
      Nat.zero_shiftLeft, Nat.zero_mod, Nat.zero_or,
      m1, m2, m3, m4, m5, m6, m7, m8]
    rw [bind_ok (run_getCpu _)]
    simp only [Function.update_same]
    rw [bind_ok (run_readMem_off (t.xs R_BASE + 7) { t with xs := Function.update (Function.update (Function.update (Function.update (Function.update (Function.update (Function.update (Function.update (Function.update (Function.update t.xs R_PC (0)) R_BASE (t.xs R_BASE + 1)) R_PC (memByte t.mem (t.xs R_BASE + 1))) R_BASE (t.xs R_BASE + 2)) R_PC (((memByte t.mem (t.xs R_BASE + 1)) <<< 8) % M32 ||| memByte t.mem (t.xs R_BASE + 2))) R_BASE (t.xs R_BASE + 3)) R_PC (((((memByte t.mem (t.xs R_BASE + 1)) <<< 8) % M32 ||| memByte t.mem (t.xs R_BASE + 2)) <<< 8) % M32 ||| memByte t.mem (t.xs R_BASE + 3))) R_BASE (t.xs R_BASE + 4)) R_PC (((((((memByte t.mem (t.xs R_BASE + 1)) <<< 8) % M32 ||| memByte t.mem (t.xs R_BASE + 2)) <<< 8) % M32 ||| memByte t.mem (t.xs R_BASE + 3)) <<< 8) % M32 ||| memByte t.mem (t.xs R_BASE + 4))) R_BASE (t.xs R_BASE + 7) } h)]
    simp only [Function.update_same, Function.update_idem, upd_pc_base, upd_base_pc,
      upd_pc_sp, upd_sp_pc, upd_base_sp, upd_sp_base, readByteP_memByte,
      Nat.zero_shiftLeft, Nat.zero_mod, Nat.zero_or,
      m1, m2, m3, m4, m5, m6, m7, m8]
    rw [bind_ok (run_incBase _)]
    simp only [Function.update_same, Function.update_idem, upd_pc_base, upd_base_pc,
      upd_pc_sp, upd_sp_pc, upd_base_sp, upd_sp_base, readByteP_memByte,
      Nat.zero_shiftLeft, Nat.zero_mod, Nat.zero_or,
      m1, m2, m3, m4, m5, m6, m7, m8]
    rw [bind_ok (run_getCpu _)]
    simp only [Function.update_same]
    rw [bind_ok (run_readMem_off (t.xs R_BASE + 8) { t with xs := Function.update (Function.update (Function.update (Function.update (Function.update (Function.update (Function.update (Function.update (Function.update (Function.update t.xs R_PC (0)) R_BASE (t.xs R_BASE + 1)) R_PC (memByte t.mem (t.xs R_BASE + 1))) R_BASE (t.xs R_BASE + 2)) R_PC (((memByte t.mem (t.xs R_BASE + 1)) <<< 8) % M32 ||| memByte t.mem (t.xs R_BASE + 2))) R_BASE (t.xs R_BASE + 3)) R_PC (((((memByte t.mem (t.xs R_BASE + 1)) <<< 8) % M32 ||| memByte t.mem (t.xs R_BASE + 2)) <<< 8) % M32 ||| memByte t.mem (t.xs R_BASE + 3))) R_BASE (t.xs R_BASE + 4)) R_PC (((((((memByte t.mem (t.xs R_BASE + 1)) <<< 8) % M32 ||| memByte t.mem (t.xs R_BASE + 2)) <<< 8) % M32 ||| memByte t.mem (t.xs R_BASE + 3)) <<< 8) % M32 ||| memByte t.mem (t.xs R_BASE + 4))) R_BASE (t.xs R_BASE + 8) } h)]
    simp only [Function.update_same, Function.update_idem, upd_pc_base, upd_base_pc,
      upd_pc_sp, upd_sp_pc, upd_base_sp, upd_sp_base, readByteP_memByte,
      Nat.zero_shiftLeft, Nat.zero_mod, Nat.zero_or,
      m1, m2, m3, m4, m5, m6, m7, m8]
    rw [bind_ok (run_modifyCpu _ _)]
    rw [run_modifyCpu]
    simp only [Function.update_same, Function.update_idem, upd_pc_base, upd_base_pc,
      upd_pc_sp, upd_sp_pc, upd_base_sp, upd_sp_base, readByteP_memByte,
      Nat.zero_shiftLeft, Nat.zero_mod, Nat.zero_or,
      m1, m2, m3, m4, m5, m6, m7, m8]
  rw [hret]
  refine ⟨rfl, ?_, ?_, ?_⟩ <;>
    simp only [Res.cpu, Function.update_same, upd_pc_base, upd_base_pc, upd_pc_sp,
      upd_sp_pc, upd_base_sp, upd_sp_base]

theorem accum4x (x : Nat) (hx : x < M32) :
    (((((((x >>> 24) % 256) <<< 8) % M32 ||| (x >>> 16) % 256)
      <<< 8) % M32 ||| (x >>> 8) % 256) <<< 8) % M32 ||| x % 256 = x := by
  have h := accum4 x hx
  have e0 : ((0 : Nat) <<< 8) % M32 = 0 := by norm_num
  rw [e0, Nat.zero_or] at h
  exact h

/-- C6: starting from a state with the MMU off, a stack pointer holding
at least eight bytes of physical memory and 32-bit register contents,
`call` succeeds, lands the program counter on the fetched 32-bit target,
and after the callee arbitrarily changes SP, `ret` succeeds and restores
PC to the address just past the call's 4-byte immediate and BASE and SP
to their pre-call values. -/
theorem c6_call_ret_symmetry (s : Cpu) (sp' : Nat)
    (hM : s.flags &&& (1 <<< F_MEMMAP_ENABLE) = 0)
    (h8 : 8 ≤ s.xs R_SP) (hsp : s.xs R_SP < PMEM)
    (hbase : s.xs R_BASE < M32) :
    (call s).isOk = true ∧
    (call s).cpu.xs R_PC = fetched32 s ∧
    (ret { (call s).cpu with xs := Function.update ((call s).cpu).xs R_SP sp' }).isOk = true ∧
    (ret { (call s).cpu with xs := Function.update ((call s).cpu).xs R_SP sp' }).cpu.xs R_PC = (s.xs R_PC + 4) % M32 ∧
    (ret { (call s).cpu with xs := Function.update ((call s).cpu).xs R_SP sp' }).cpu.xs R_BASE = s.xs R_BASE ∧
    (ret { (call s).cpu with xs := Function.update ((call s).cpu).xs R_SP sp' }).cpu.xs R_SP = s.xs R_SP := by
  have hsp' : s.xs R_SP < 16777216 := hsp
  have e1 : memByte (Function.update (Function.update (Function.update (Function.update (Function.update (Function.update (Function.update (Function.update s.mem (s.xs R_SP) (s.xs R_BASE % 256)) (s.xs R_SP - 1) ((s.xs R_BASE >>> 8) % 256)) (s.xs R_SP - 2) ((s.xs R_BASE >>> 16) % 256)) (s.xs R_SP - 3) ((s.xs R_BASE >>> 24) % 256)) (s.xs R_SP - 4) (((s.xs R_PC + 4) % M32) % 256)) (s.xs R_SP - 5) ((((s.xs R_PC + 4) % M32) >>> 8) % 256)) (s.xs R_SP - 6) ((((s.xs R_PC + 4) % M32) >>> 16) % 256)) (s.xs R_SP - 7) ((((s.xs R_PC + 4) % M32) >>> 24) % 256)) (s.xs R_SP - 8 + 1) = (((s.xs R_PC + 4) % M32) >>> 24) % 256 := by
    have ha : s.xs R_SP - 8 + 1 = s.xs R_SP - 7 := by omega
    rw [ha]
    unfold memByte
    rw [if_pos (lt_of_le_of_lt (Nat.sub_le _ _) hsp)]
    rw [Function.update_same]
    exact mod256_mod256 _
  have e2 : memByte (Function.update (Function.update (Function.update (Function.update (Function.update (Function.update (Function.update (Function.update s.mem (s.xs R_SP) (s.xs R_BASE % 256)) (s.xs R_SP - 1) ((s.xs R_BASE >>> 8) % 256)) (s.xs R_SP - 2) ((s.xs R_BASE >>> 16) % 256)) (s.xs R_SP - 3) ((s.xs R_BASE >>> 24) % 256)) (s.xs R_SP - 4) (((s.xs R_PC + 4) % M32) % 256)) (s.xs R_SP - 5) ((((s.xs R_PC + 4) % M32) >>> 8) % 256)) (s.xs R_SP - 6) ((((s.xs R_PC + 4) % M32) >>> 16) % 256)) (s.xs R_SP - 7) ((((s.xs R_PC + 4) % M32) >>> 24) % 256)) (s.xs R_SP - 8 + 2) = (((s.xs R_PC + 4) % M32) >>> 16) % 256 := by
    have ha : s.xs R_SP - 8 + 2 = s.xs R_SP - 6 := by omega
    rw [ha]
    unfold memByte
    rw [if_pos (lt_of_le_of_lt (Nat.sub_le _ _) hsp)]
    rw [Function.update_noteq (show (s.xs R_SP - 6 : Nat) ≠ s.xs R_SP - 7 by omega), Function.update_same]
    exact mod256_mod256 _
  have e3 : memByte (Function.update (Function.update (Function.update (Function.update (Function.update (Function.update (Function.update (Function.update s.mem (s.xs R_SP) (s.xs R_BASE % 256)) (s.xs R_SP - 1) ((s.xs R_BASE >>> 8) % 256)) (s.xs R_SP - 2) ((s.xs R_BASE >>> 16) % 256)) (s.xs R_SP - 3) ((s.xs R_BASE >>> 24) % 256)) (s.xs R_SP - 4) (((s.xs R_PC + 4) % M32) % 256)) (s.xs R_SP - 5) ((((s.xs R_PC + 4) % M32) >>> 8) % 256)) (s.xs R_SP - 6) ((((s.xs R_PC + 4) % M32) >>> 16) % 256)) (s.xs R_SP - 7) ((((s.xs R_PC + 4) % M32) >>> 24) % 256)) (s.xs R_SP - 8 + 3) = (((s.xs R_PC + 4) % M32) >>> 8) % 256 := by
    have ha : s.xs R_SP - 8 + 3 = s.xs R_SP - 5 := by omega
    rw [ha]
    unfold memByte
    rw [if_pos (lt_of_le_of_lt (Nat.sub_le _ _) hsp)]
    rw [Function.update_noteq (show (s.xs R_SP - 5 : Nat) ≠ s.xs R_SP - 7 by omega), Function.update_noteq (show (s.xs R_SP - 5 : Nat) ≠ s.xs R_SP - 6 by omega), Function.update_same]
    exact mod256_mod256 _
  have e4 : memByte (Function.update (Function.update (Function.update (Function.update (Function.update (Function.update (Function.update (Function.update s.mem (s.xs R_SP) (s.xs R_BASE % 256)) (s.xs R_SP - 1) ((s.xs R_BASE >>> 8) % 256)) (s.xs R_SP - 2) ((s.xs R_BASE >>> 16) % 256)) (s.xs R_SP - 3) ((s.xs R_BASE >>> 24) % 256)) (s.xs R_SP - 4) (((s.xs R_PC + 4) % M32) % 256)) (s.xs R_SP - 5) ((((s.xs R_PC + 4) % M32) >>> 8) % 256)) (s.xs R_SP - 6) ((((s.xs R_PC + 4) % M32) >>> 16) % 256)) (s.xs R_SP - 7) ((((s.xs R_PC + 4) % M32) >>> 24) % 256)) (s.xs R_SP - 8 + 4) = ((s.xs R_PC + 4) % M32) % 256 := by
    have ha : s.xs R_SP - 8 + 4 = s.xs R_SP - 4 := by omega
    rw [ha]
    unfold memByte
    rw [if_pos (lt_of_le_of_lt (Nat.sub_le _ _) hsp)]
    rw [Function.update_noteq (show (s.xs R_SP - 4 : Nat) ≠ s.xs R_SP - 7 by omega), Function.update_noteq (show (s.xs R_SP - 4 : Nat) ≠ s.xs R_SP - 6 by omega), Function.update_noteq (show (s.xs R_SP - 4 : Nat) ≠ s.xs R_SP - 5 by omega), Function.update_same]
    exact mod256_mod256 _
  have e5 : memByte (Function.update (Function.update (Function.update (Function.update (Function.update (Function.update (Function.update (Function.update s.mem (s.xs R_SP) (s.xs R_BASE % 256)) (s.xs R_SP - 1) ((s.xs R_BASE >>> 8) % 256)) (s.xs R_SP - 2) ((s.xs R_BASE >>> 16) % 256)) (s.xs R_SP - 3) ((s.xs R_BASE >>> 24) % 256)) (s.xs R_SP - 4) (((s.xs R_PC + 4) % M32) % 256)) (s.xs R_SP - 5) ((((s.xs R_PC + 4) % M32) >>> 8) % 256)) (s.xs R_SP - 6) ((((s.xs R_PC + 4) % M32) >>> 16) % 256)) (s.xs R_SP - 7) ((((s.xs R_PC + 4) % M32) >>> 24) % 256)) (s.xs R_SP - 8 + 5) = (s.xs R_BASE >>> 24) % 256 := by
    have ha : s.xs R_SP - 8 + 5 = s.xs R_SP - 3 := by omega
    rw [ha]
    unfold memByte
    rw [if_pos (lt_of_le_of_lt (Nat.sub_le _ _) hsp)]
    rw [Function.update_noteq (show (s.xs R_SP - 3 : Nat) ≠ s.xs R_SP - 7 by omega), Function.update_noteq (show (s.xs R_SP - 3 : Nat) ≠ s.xs R_SP - 6 by omega), Function.update_noteq (show (s.xs R_SP - 3 : Nat) ≠ s.xs R_SP - 5 by omega), Function.update_noteq (show (s.xs R_SP - 3 : Nat) ≠ s.xs R_SP - 4 by omega), Function.update_same]
    exact mod256_mod256 _
  have e6 : memByte (Function.update (Function.update (Function.update (Function.update (Function.update (Function.update (Function.update (Function.update s.mem (s.xs R_SP) (s.xs R_BASE % 256)) (s.xs R_SP - 1) ((s.xs R_BASE >>> 8) % 256)) (s.xs R_SP - 2) ((s.xs R_BASE >>> 16) % 256)) (s.xs R_SP - 3) ((s.xs R_BASE >>> 24) % 256)) (s.xs R_SP - 4) (((s.xs R_PC + 4) % M32) % 256)) (s.xs R_SP - 5) ((((s.xs R_PC + 4) % M32) >>> 8) % 256)) (s.xs R_SP - 6) ((((s.xs R_PC + 4) % M32) >>> 16) % 256)) (s.xs R_SP - 7) ((((s.xs R_PC + 4) % M32) >>> 24) % 256)) (s.xs R_SP - 8 + 6) = (s.xs R_BASE >>> 16) % 256 := by
    have ha : s.xs R_SP - 8 + 6 = s.xs R_SP - 2 := by omega
    rw [ha]
    unfold memByte
    rw [if_pos (lt_of_le_of_lt (Nat.sub_le _ _) hsp)]
    rw [Function.update_noteq (show (s.xs R_SP - 2 : Nat) ≠ s.xs R_SP - 7 by omega), Function.update_noteq (show (s.xs R_SP - 2 : Nat) ≠ s.xs R_SP - 6 by omega), Function.update_noteq (show (s.xs R_SP - 2 : Nat) ≠ s.xs R_SP - 5 by omega), Function.update_noteq (show (s.xs R_SP - 2 : Nat) ≠ s.xs R_SP - 4 by omega), Function.update_noteq (show (s.xs R_SP - 2 : Nat) ≠ s.xs R_SP - 3 by omega), Function.update_same]
    exact mod256_mod256 _
  have e7 : memByte (Function.update (Function.update (Function.update (Function.update (Function.update (Function.update (Function.update (Function.update s.mem (s.xs R_SP) (s.xs R_BASE % 256)) (s.xs R_SP - 1) ((s.xs R_BASE >>> 8) % 256)) (s.xs R_SP - 2) ((s.xs R_BASE >>> 16) % 256)) (s.xs R_SP - 3) ((s.xs R_BASE >>> 24) % 256)) (s.xs R_SP - 4) (((s.xs R_PC + 4) % M32) % 256)) (s.xs R_SP - 5) ((((s.xs R_PC + 4) % M32) >>> 8) % 256)) (s.xs R_SP - 6) ((((s.xs R_PC + 4) % M32) >>> 16) % 256)) (s.xs R_SP - 7) ((((s.xs R_PC + 4) % M32) >>> 24) % 256)) (s.xs R_SP - 8 + 7) = (s.xs R_BASE >>> 8) % 256 := by
    have ha : s.xs R_SP - 8 + 7 = s.xs R_SP - 1 := by omega
    rw [ha]
    unfold memByte
    rw [if_pos (lt_of_le_of_lt (Nat.sub_le _ _) hsp)]
    rw [Function.update_noteq (show (s.xs R_SP - 1 : Nat) ≠ s.xs R_SP - 7 by omega), Function.update_noteq (show (s.xs R_SP - 1 : Nat) ≠ s.xs R_SP - 6 by omega), Function.update_noteq (show (s.xs R_SP - 1 : Nat) ≠ s.xs R_SP - 5 by omega), Function.update_noteq (show (s.xs R_SP - 1 : Nat) ≠ s.xs R_SP - 4 by omega), Function.update_noteq (show (s.xs R_SP - 1 : Nat) ≠ s.xs R_SP - 3 by omega), Function.update_noteq (show (s.xs R_SP - 1 : Nat) ≠ s.xs R_SP - 2 by omega), Function.update_same]
    exact mod256_mod256 _
  have e8 : memByte (Function.update (Function.update (Function.update (Function.update (Function.update (Function.update (Function.update (Function.update s.mem (s.xs R_SP) (s.xs R_BASE % 256)) (s.xs R_SP - 1) ((s.xs R_BASE >>> 8) % 256)) (s.xs R_SP - 2) ((s.xs R_BASE >>> 16) % 256)) (s.xs R_SP - 3) ((s.xs R_BASE >>> 24) % 256)) (s.xs R_SP - 4) (((s.xs R_PC + 4) % M32) % 256)) (s.xs R_SP - 5) ((((s.xs R_PC + 4) % M32) >>> 8) % 256)) (s.xs R_SP - 6) ((((s.xs R_PC + 4) % M32) >>> 16) % 256)) (s.xs R_SP - 7) ((((s.xs R_PC + 4) % M32) >>> 24) % 256)) (s.xs R_SP - 8 + 8) = s.xs R_BASE % 256 := by
    have ha : s.xs R_SP - 8 + 8 = s.xs R_SP := by omega
    rw [ha]
    unfold memByte
    rw [if_pos hsp]
    rw [Function.update_noteq (show (s.xs R_SP : Nat) ≠ s.xs R_SP - 7 by omega), Function.update_noteq (show (s.xs R_SP : Nat) ≠ s.xs R_SP - 6 by omega), Function.update_noteq (show (s.xs R_SP : Nat) ≠ s.xs R_SP - 5 by omega), Function.update_noteq (show (s.xs R_SP : Nat) ≠ s.xs R_SP - 4 by omega), Function.update_noteq (show (s.xs R_SP : Nat) ≠ s.xs R_SP - 3 by omega), Function.update_noteq (show (s.xs R_SP : Nat) ≠ s.xs R_SP - 2 by omega), Function.update_noteq (show (s.xs R_SP : Nat) ≠ s.xs R_SP - 1 by omega), Function.update_same]
    exact mod256_mod256 _
  have hb8' : (Function.update (Function.update (Function.update (Function.update (Function.update s.xs R_PC ((s.xs R_PC + 4) % M32)) R_SP (s.xs R_SP - 8)) R_BASE (s.xs R_SP - 8)) R_PC (fetched32 s)) R_SP sp') R_BASE + 8 < M32 := by
    rw [upd_sp_base, upd_pc_base, Function.update_same]
    show s.xs R_SP - 8 + 8 < 4294967296
    omega
  obtain ⟨hok, hPC, hBASE, hSP⟩ := ret_projections { xs := Function.update (Function.update (Function.update (Function.update (Function.update s.xs R_PC ((s.xs R_PC + 4) % M32)) R_SP (s.xs R_SP - 8)) R_BASE (s.xs R_SP - 8)) R_PC (fetched32 s)) R_SP sp', fs := s.fs, flags := s.flags, memmap := s.memmap, mem := Function.update (Function.update (Function.update (Function.update (Function.update (Function.update (Function.update (Function.update s.mem (s.xs R_SP) (s.xs R_BASE % 256)) (s.xs R_SP - 1) ((s.xs R_BASE >>> 8) % 256)) (s.xs R_SP - 2) ((s.xs R_BASE >>> 16) % 256)) (s.xs R_SP - 3) ((s.xs R_BASE >>> 24) % 256)) (s.xs R_SP - 4) (((s.xs R_PC + 4) % M32) % 256)) (s.xs R_SP - 5) ((((s.xs R_PC + 4) % M32) >>> 8) % 256)) (s.xs R_SP - 6) ((((s.xs R_PC + 4) % M32) >>> 16) % 256)) (s.xs R_SP - 7) ((((s.xs R_PC + 4) % M32) >>> 24) % 256) } hM hb8'
  simp only [upd_sp_base, upd_pc_base, Function.update_same] at hPC hBASE hSP
  rw [e1, e2, e3, e4] at hPC
  rw [e5, e6, e7, e8] at hBASE
  rw [accum4x ((s.xs R_PC + 4) % M32) (Nat.mod_lt _ (by decide))] at hPC
  rw [accum4x (s.xs R_BASE) hbase] at hBASE
  rw [run_call s hM h8 hsp]
  refine ⟨rfl, ?_, ?_, ?_, ?_, ?_⟩
  · simp only [Res.cpu, Function.update_same]
  · exact hok
  · exact hPC
  · exact hBASE
  · exact hSP.trans (by omega)


theorem c6_call_ret_symmetry_witness :
    (wcall.flags &&& (1 <<< F_MEMMAP_ENABLE) = 0 ∧ 8 ≤ wcall.xs R_SP ∧
     wcall.xs R_SP < PMEM ∧ wcall.xs R_BASE < M32) ∧
    ((call wcall).isOk = true ∧
     (call wcall).cpu.xs R_PC = fetched32 wcall ∧
     (ret { (call wcall).cpu with xs := Function.update ((call wcall).cpu).xs R_SP 49033 }).isOk = true ∧
     (ret { (call wcall).cpu with xs := Function.update ((call wcall).cpu).xs R_SP 49033 }).cpu.xs R_PC = (wcall.xs R_PC + 4) % M32 ∧
     (ret { (call wcall).cpu with xs := Function.update ((call wcall).cpu).xs R_SP 49033 }).cpu.xs R_BASE = wcall.xs R_BASE ∧
     (ret { (call wcall).cpu with xs := Function.update ((call wcall).cpu).xs R_SP 49033 }).cpu.xs R_SP = wcall.xs R_SP) :=
  ⟨⟨by decide, by decide, by decide, by decide⟩,
   c6_call_ret_symmetry wcall 49033 (by decide) (by decide) (by decide) (by decide)⟩

end Cpuwu
